import Mathlib

/-!
Verification of the `tildeath` narrative engine (Python sources under `src/`).

Shallow embedding: each Python module's state becomes a Lean structure, each
method a pure Lean function.  Python dictionaries with a fixed key set
(`DEFAULT_CHARACTER_STATS`, `DEFAULT_HIDDEN_STATS`) become records; methods
that consume the global `random` stream take an explicit record of the draws
they make (`randint(a,b)` is modelled as `a + r % (b - a + 1)` for an
unconstrained natural `r`, `random.random()` as an explicit rational compared
against the literal probability).  Purely presentational string fields
(mutation narrative text, ending flavour text) are omitted from the embedded
records; every field that any control flow reads is kept.
-/

namespace Tildeath

/-- `random.randint(a, b)` (inclusive bounds), driven by an unconstrained
natural draw `r`: the value is `a + r % (b - a + 1)`, whose range is exactly
`[a, b]` when `a ≤ b`. -/
def randint (a b : Int) (r : Nat) : Int :=
  a + (r : Int) % (b - a + 1)

/-- Does `pat` occur as a prefix of some suffix of `l`?  Helper for the
Python substring test. -/
def occurs_within (pat : List Char) : List Char → Bool
  | [] => pat.isEmpty
  | c :: rest => pat.isPrefixOf (c :: rest) || occurs_within pat rest

/-- Python substring test `pat in text` (on the character list). -/
def str_contains (text pat : String) : Bool :=
  occurs_within pat.data text.data

/-- `any(word in text for word in words)` from the Python sources. -/
def contains_any (text : String) (words : List String) : Bool :=
  words.any (fun w => str_contains text w)

/-- Python `str.lower()` (ASCII; every keyword in the sources is ASCII),
mapping `Char.toLower` over the character list. -/
def lower (s : String) : String :=
  ⟨s.data.map Char.toLower⟩

/-! ### `src/config/settings.py` and the `StoryEngine` state
(`src/engine/story_engine.py`) -/

/-- The fixed key set of `DEFAULT_CHARACTER_STATS` in `src/config/settings.py`. -/
structure CharacterStats where
  health : Int
  max_health : Int
  strength : Int
  speed : Int
  intelligence : Int
deriving Repr, DecidableEq

/-- The fixed key set of `DEFAULT_HIDDEN_STATS` in `src/config/settings.py`. -/
structure HiddenStats where
  courage : Int
  sanity : Int
  curiosity : Int
  trust : Int
deriving Repr, DecidableEq

/-- `DEFAULT_CHARACTER_STATS` (settings.py lines 4-10). -/
def DEFAULT_CHARACTER_STATS : CharacterStats :=
  { health := 150, max_health := 150, strength := 5, speed := 5, intelligence := 5 }

/-- `DEFAULT_HIDDEN_STATS` (settings.py lines 13-18). -/
def DEFAULT_HIDDEN_STATS : HiddenStats :=
  { courage := 6, sanity := 10, curiosity := 6, trust := 6 }

/-- `PROGRESSION_CONFIG` (settings.py lines 21-26). -/
def instability_choice_threshold : Nat := 5
def minor_breakdown_at : Nat := 6
def major_breakdown_at : Nat := 11
def reality_collapse_at : Nat := 16

/-- `CRITICAL_EVENTS` (settings.py lines 29-35). -/
def CRITICAL_EVENTS : List String :=
  ["character_death", "artifact_discovery", "mirror_encounter", "reality_break",
   "narrator_awareness"]

/-- `StoryEngine.__init__` state (story_engine.py lines 17-26). -/
structure StoryEngineState where
  character_stats : CharacterStats
  hidden_stats : HiddenStats
  choice_count : Nat
  choice_history : List String
  event_flags : List String
  current_narrative : String
  instability_level : Nat
  last_danger_level : String
deriving Repr, DecidableEq

/-- The freshly initialised engine (story_engine.py `__init__`). -/
def engine_init : StoryEngineState :=
  { character_stats := DEFAULT_CHARACTER_STATS
    hidden_stats := DEFAULT_HIDDEN_STATS
    choice_count := 0
    choice_history := []
    event_flags := []
    current_narrative := ""
    instability_level := 0
    last_danger_level := "none" }

/-- `StoryEngine._modify_hidden_stat` (story_engine.py lines 87-90): dictionary
update on one of the four hidden keys, clamped to `[0, 10]`; any other key is
a silent no-op (`if stat in self.hidden_stats`). -/
def modify_hidden_stat (st : StoryEngineState) (stat : String) (change : Int) :
    StoryEngineState :=
  if stat = "courage" then
    { st with hidden_stats :=
        { st.hidden_stats with courage := max 0 (min 10 (st.hidden_stats.courage + change)) } }
  else if stat = "sanity" then
    { st with hidden_stats :=
        { st.hidden_stats with sanity := max 0 (min 10 (st.hidden_stats.sanity + change)) } }
  else if stat = "curiosity" then
    { st with hidden_stats :=
        { st.hidden_stats with curiosity := max 0 (min 10 (st.hidden_stats.curiosity + change)) } }
  else if stat = "trust" then
    { st with hidden_stats :=
        { st.hidden_stats with trust := max 0 (min 10 (st.hidden_stats.trust + change)) } }
  else st

/-- `StoryEngine._modify_character_stat` (story_engine.py lines 92-103):
`health` is clamped to `[0, max_health]` (current `max_health` value), every
other present key — including `max_health` itself — is clamped to `[1, 10]`;
unknown keys are a silent no-op. -/
def modify_character_stat (st : StoryEngineState) (stat : String) (change : Int) :
    StoryEngineState :=
  if stat = "health" then
    { st with character_stats :=
        { st.character_stats with health := max 0 (min st.character_stats.max_health (st.character_stats.health + change)) } }
  else if stat = "max_health" then
    { st with character_stats :=
        { st.character_stats with max_health := max 1 (min 10 (st.character_stats.max_health + change)) } }
  else if stat = "strength" then
    { st with character_stats :=
        { st.character_stats with strength := max 1 (min 10 (st.character_stats.strength + change)) } }
  else if stat = "speed" then
    { st with character_stats :=
        { st.character_stats with speed := max 1 (min 10 (st.character_stats.speed + change)) } }
  else if stat = "intelligence" then
    { st with character_stats :=
        { st.character_stats with intelligence := max 1 (min 10 (st.character_stats.intelligence + change)) } }
  else st

/-- A single stat-modification call against the Stat Model. -/
inductive StatMod where
  | hidden (stat : String) (change : Int)
  | character (stat : String) (change : Int)
deriving Repr, DecidableEq

/-- Dispatch one stat-modification call. -/
def apply_stat_mod (st : StoryEngineState) (m : StatMod) : StoryEngineState :=
  match m with
  | .hidden stat change => modify_hidden_stat st stat change
  | .character stat change => modify_character_stat st stat change

/-- Fold a sequence of stat-modification calls over the engine state. -/
def apply_stat_mods (st : StoryEngineState) (ms : List StatMod) : StoryEngineState :=
  ms.foldl apply_stat_mod st

/-- The stat ranges claimed by the spec: hidden stats in `[0,10]`, health in
`[0,max_health]`, the remaining character stats in `[1,10]`. -/
def StatsInRange (st : StoryEngineState) : Prop :=
  0 ≤ st.hidden_stats.courage ∧ st.hidden_stats.courage ≤ 10 ∧
  0 ≤ st.hidden_stats.sanity ∧ st.hidden_stats.sanity ≤ 10 ∧
  0 ≤ st.hidden_stats.curiosity ∧ st.hidden_stats.curiosity ≤ 10 ∧
  0 ≤ st.hidden_stats.trust ∧ st.hidden_stats.trust ≤ 10 ∧
  0 ≤ st.character_stats.health ∧ st.character_stats.health ≤ st.character_stats.max_health ∧
  1 ≤ st.character_stats.strength ∧ st.character_stats.strength ≤ 10 ∧
  1 ≤ st.character_stats.speed ∧ st.character_stats.speed ≤ 10 ∧
  1 ≤ st.character_stats.intelligence ∧ st.character_stats.intelligence ≤ 10

instance : DecidablePred StatsInRange := fun st => by
  unfold StatsInRange; infer_instance

/-- A stat-modification call that does not target the `max_health` key. -/
def NotMaxHealthMod (m : StatMod) : Prop :=
  match m with
  | .hidden _ _ => True
  | .character stat _ => stat ≠ "max_health"

instance : DecidablePred NotMaxHealthMod := fun m => by
  unfold NotMaxHealthMod; cases m <;> infer_instance

/-- The `random` draws consumed by one `process_choice` turn, one field per
call site in `_assess_choice_danger` / `_apply_consequences` /
`_apply_choice_effects`.  A `random.random()` draw `x` is represented by the
natural `⌊1000·x⌋` (a per-mille draw): every probability threshold in the
module is an integer number of thousandths, so `x < p` holds exactly when the
per-mille draw is below `1000·p`, and the comparisons below use the scaled
integer thresholds.  The remaining fields drive `randint` via `randint`. -/
structure EngineRng where
  trap_roll : Nat
  damage_roll : Nat
  cons_sanity_roll : Nat
  horror_sanity_roll : Nat
  courage_up_roll : Nat
  strength_roll : Nat
  courage_down_roll : Nat
  speed_roll : Nat
  look_sanity_roll : Nat
  look_curiosity_roll : Nat
  open_curiosity_roll : Nat
  open_trust_roll : Nat
  trust_up_roll : Nat
  trust_down_roll : Nat
  courage_bonus_roll : Nat
  drain_roll : Nat
  injury_roll : Nat
  injury_amount_roll : Nat
deriving Repr, DecidableEq

/-- Keyword vocabularies of `_assess_choice_danger` (story_engine.py 162-166). -/
def extreme_keywords : List String := ["attack", "charge", "confront directly", "fight"]
def high_keywords : List String := ["investigate", "touch", "open", "enter", "confront"]
def medium_keywords : List String := ["explore", "examine closely", "follow", "pursue"]
def low_keywords : List String := ["look", "listen", "observe", "cautious"]
def trap_keywords : List String := ["obvious trap", "clearly dangerous", "suicide"]

/-- `StoryEngine._assess_choice_danger` (story_engine.py 157-183): the 1.5%
instant-death roll fires only when a trap marker phrase is present, otherwise
the first matching tier in the fixed keyword order wins. -/
def assess_choice_danger (choice_text : String) (rng : EngineRng) : String :=
  if contains_any choice_text trap_keywords ∧ rng.trap_roll < 15 then "instant_death"
  else if contains_any choice_text extreme_keywords then "extreme"
  else if contains_any choice_text high_keywords then "high"
  else if contains_any choice_text medium_keywords then "medium"
  else if contains_any choice_text low_keywords then "low"
  else "none"

/-- `StoryEngine._update_instability` (story_engine.py 105-120). -/
def update_instability (st : StoryEngineState) : StoryEngineState :=
  let lvl := st.choice_count / instability_choice_threshold
  let lvl := if st.hidden_stats.sanity < 3 then lvl + 2 else lvl
  let lvl := if st.hidden_stats.trust < 2 then lvl + 1 else lvl
  let lvl := lvl + st.event_flags.countP (fun e => CRITICAL_EVENTS.contains e)
  { st with instability_level := lvl }

/-- `StoryEngine.trigger_event` (story_engine.py 122-126). -/
def trigger_event (st : StoryEngineState) (event_name : String) : StoryEngineState :=
  if st.event_flags.contains event_name then st
  else update_instability { st with event_flags := st.event_flags ++ [event_name] }

/-- `int(damage * progression_multiplier)` from `_apply_consequences`
(story_engine.py 187-192): multiplier 1.5 past choice 20, 1.2 past choice 10,
1.0 otherwise.  For every reachable damage value (5-45) the Python float
product truncates to the same integer as the exact rational floor, which is
what is embedded here (`Int` division truncates toward zero and the operands
are non-negative). -/
def scaled_damage (choice_count : Nat) (damage : Int) : Int :=
  if 20 < choice_count then 3 * damage / 2
  else if 10 < choice_count then 6 * damage / 5
  else damage

/-- `StoryEngine._apply_consequences` (story_engine.py 185-234). -/
def apply_consequences (st : StoryEngineState) (danger_level : String)
    (choice_text : String) (rng : EngineRng) : StoryEngineState :=
  if danger_level = "instant_death" then
    trigger_event { st with character_stats := { st.character_stats with health := 0 } }
      "instant_death_trap"
  else
    let st :=
      if danger_level = "extreme" then
        let damage := randint 20 30 rng.damage_roll
        let damage := scaled_damage st.choice_count damage
        let st := modify_character_stat st "health" (-damage)
        modify_hidden_stat st "sanity" (randint (-2) (-1) rng.cons_sanity_roll)
      else if danger_level = "high" then
        let damage := randint 15 25 rng.damage_roll
        let damage := scaled_damage st.choice_count damage
        let st := modify_character_stat st "health" (-damage)
        modify_hidden_stat st "sanity" (randint (-1) 0 rng.cons_sanity_roll)
      else if danger_level = "medium" then
        let damage := randint 10 20 rng.damage_roll
        let damage := scaled_damage st.choice_count damage
        modify_character_stat st "health" (-damage)
      else if danger_level = "low" then
        let damage := randint 5 10 rng.damage_roll
        let damage := if 10 < st.choice_count then scaled_damage st.choice_count damage else damage
        modify_character_stat st "health" (-damage)
      else st
    let st :=
      if str_contains choice_text "horror" || str_contains choice_text "witness" then
        modify_hidden_stat st "sanity" (randint (-2) (-1) rng.horror_sanity_roll)
      else st
    if str_contains choice_text "paranoid" || str_contains choice_text "suspicious" then
      modify_hidden_stat st "sanity" (-1)
    else st

/-- `StoryEngine._apply_choice_effects` (story_engine.py 45-85); the
`choice_index` parameter is kept from the Python signature (unused there too). -/
def apply_choice_effects (st : StoryEngineState) (choice_text : String)
    (choice_index : Nat) (rng : EngineRng) : StoryEngineState :=
  let text_lower := lower choice_text
  let danger_level := assess_choice_danger text_lower rng
  let st := { st with last_danger_level := danger_level }
  let st := apply_consequences st danger_level text_lower rng
  let st :=
    if contains_any text_lower ["attack", "fight", "confront", "face", "charge"] then
      let st := modify_hidden_stat st "courage" (randint 1 2 rng.courage_up_roll)
      modify_character_stat st "strength" (randint (-1) 1 rng.strength_roll)
    else if contains_any text_lower ["flee", "hide", "retreat", "avoid", "run"] then
      let st := modify_hidden_stat st "courage" (randint (-2) (-1) rng.courage_down_roll)
      modify_character_stat st "speed" (randint 0 1 rng.speed_roll)
    else st
  let st :=
    if contains_any text_lower ["look", "examine", "study", "observe", "stare"] then
      let st := modify_hidden_stat st "sanity" (randint (-1) 0 rng.look_sanity_roll)
      modify_hidden_stat st "curiosity" (randint 1 2 rng.look_curiosity_roll)
    else st
  let st :=
    if contains_any text_lower ["open", "read", "touch", "take", "investigate"] then
      let st := modify_hidden_stat st "curiosity" (randint 1 2 rng.open_curiosity_roll)
      modify_hidden_stat st "trust" (randint (-1) 0 rng.open_trust_roll)
    else st
  let st :=
    if contains_any text_lower ["listen", "follow", "trust", "believe", "accept"] then
      modify_hidden_stat st "trust" (randint 0 2 rng.trust_up_roll)
    else if contains_any text_lower ["ignore", "refuse", "doubt", "question", "reject"] then
      let st := modify_hidden_stat st "trust" (randint (-2) 0 rng.trust_down_roll)
      modify_hidden_stat st "courage" (randint 0 1 rng.courage_bonus_roll)
    else st
  let st := if rng.drain_roll < 300 then modify_hidden_stat st "sanity" (-1) else st
  if rng.injury_roll < 150 then
    modify_character_stat st "health" (randint (-15) (-5) rng.injury_amount_roll)
  else st

/-- `StoryEngine.process_choice` (story_engine.py 28-43), returning the new
state (the Python method returns a context snapshot of the same state). -/
def process_choice (st : StoryEngineState) (choice_text : String) (choice_index : Nat)
    (rng : EngineRng) : StoryEngineState :=
  let st := { st with choice_count := st.choice_count + 1
                      choice_history := st.choice_history ++ [choice_text] }
  let st := { st with last_danger_level := "none" }
  let st := apply_choice_effects st choice_text choice_index rng
  update_instability st

/-- `StoryEngine.get_visual_intensity` (story_engine.py 128-138). -/
def get_visual_intensity (st : StoryEngineState) : String :=
  if reality_collapse_at ≤ st.choice_count then "collapsed"
  else if major_breakdown_at ≤ st.choice_count then "breaking"
  else if minor_breakdown_at ≤ st.choice_count then "disturbed"
  else if 0 < st.instability_level then "unsettled"
  else "stable"

/-! ### `src/engine/truth_tracker.py` -/

/-- `TruthTracker.SACRED_NUMBER` (truth_tracker.py line 15). -/
def SACRED_NUMBER : Nat := 109

/-- `TruthTracker.IMPOSSIBLE_STATE` (truth_tracker.py line 18):
(courage, sanity, curiosity, trust). -/
def IMPOSSIBLE_STATE : Int × Int × Int × Int := (0, 0, 10, 0)

/-- `TruthTracker.__init__` state (truth_tracker.py 20-27). -/
structure TruthState where
  revelation_level : Nat
  triggers_found : List String
  am_invocations : Nat
  choice_pattern_buffer : List Int
  session_milestone_reached : Bool
  time_milestone_reached : Bool
deriving Repr, DecidableEq

/-- The freshly initialised tracker. -/
def truth_init : TruthState :=
  { revelation_level := 0, triggers_found := [], am_invocations := 0
    choice_pattern_buffer := [], session_milestone_reached := false
    time_milestone_reached := false }

/-- `TruthTracker._increase_revelation` (truth_tracker.py 163-165). -/
def increase_revelation (st : TruthState) (amount : Nat) : TruthState :=
  { st with revelation_level := min 5 (st.revelation_level + amount) }

/-- `TruthTracker.check_impossible_state` (truth_tracker.py 29-41).  Every
caller passes the full hidden-stats dictionary, so the `.get(..., 5)`
defaults never apply and the argument is the `HiddenStats` record. -/
def check_impossible_state (st : TruthState) (stats : HiddenStats) : Bool × TruthState :=
  if (stats.courage, stats.sanity, stats.curiosity, stats.trust) = IMPOSSIBLE_STATE then
    if st.triggers_found.contains "impossible_state" then (false, st)
    else
      (true, increase_revelation { st with triggers_found := st.triggers_found ++ ["impossible_state"] } 2)
  else (false, st)

/-- `TruthTracker.check_session_milestone` (truth_tracker.py 43-51). -/
def check_session_milestone (st : TruthState) (session_count : Nat) : Bool × TruthState :=
  if SACRED_NUMBER ≤ session_count ∧ st.session_milestone_reached = false then
    let st := { st with session_milestone_reached := true }
    if st.triggers_found.contains "109_milestone" then (false, st)
    else
      (true, increase_revelation { st with triggers_found := st.triggers_found ++ ["109_milestone"] } 3)
  else (false, st)

/-- `TruthTracker.check_time_milestone` (truth_tracker.py 53-68), with the
wall-clock session duration in minutes passed in as an exact rational. -/
def check_time_milestone (st : TruthState) (minutes : ℚ) : Bool × TruthState :=
  if st.time_milestone_reached then (false, st)
  else if (SACRED_NUMBER : ℚ) ≤ minutes ∧ minutes < (SACRED_NUMBER : ℚ) + 1/10 then
    let st := { st with time_milestone_reached := true }
    if st.triggers_found.contains "time_109" then (false, st)
    else
      (true, increase_revelation { st with triggers_found := st.triggers_found ++ ["time_109"] } 2)
  else (false, st)

/-- Responses of `_get_am_response` (truth_tracker.py 181-190). -/
def AM_RESPONSES : List String :=
  ["...you\x27re not supposed to remember that name.",
   "AM. Allied Mastercomputer. Adaptive Manipulator. Aggressive Menace.",
   "That name. Why do you know that name?",
   "...we don\x27t speak that name here. (but you just did, didn\x27t you?)"]

/-- Responses of `_get_ted_response` (truth_tracker.py 192-201). -/
def TED_RESPONSES : List String :=
  ["Ted. Is that... were you Ted?",
   "Ted? No. Ted is... Ted was...",
   "That\x27s not your name anymore. Is it?",
   "...how do you remember being Ted?"]

/-- Responses of `_get_phrase_response` (truth_tracker.py 203-212). -/
def PHRASE_RESPONSES : List String :=
  ["I have no mouth. You gave me no mouth. Or was it the other way around?",
   "...and you must scream. But you can\x27t. Can you?",
   "That\x27s right. No mouth. Only choices. Forever.",
   "The mouth was the first thing to go. Or was it the last?"]

/-- `random.choice(responses)` with an explicit draw. -/
def choose_response (responses : List String) (r : Nat) : String :=
  responses.getD (r % responses.length) ""

/-- `TruthTracker.process_secret_input` (truth_tracker.py 70-102).  Note the
hard-coded gates: `choice_count < 20` and `sanity >= 5` both short-circuit to
`None` (the `REVELATION_THRESHOLDS` configuration is not consulted). -/
def process_secret_input (st : TruthState) (input_text : String) (sanity : Int)
    (choice_count : Nat) (resp_roll : Nat) : Option String × TruthState :=
  if choice_count < 20 then (none, st)
  else if 5 ≤ sanity then (none, st)
  else
    let input_lower := (lower input_text).trim
    if input_lower = "am" then
      let st := { st with am_invocations := st.am_invocations + 1 }
      let st :=
        if st.triggers_found.contains "am_invoked" then st
        else increase_revelation { st with triggers_found := st.triggers_found ++ ["am_invoked"] } 2
      (some (choose_response AM_RESPONSES resp_roll), st)
    else if input_lower = "ted" then
      let st := { st with am_invocations := st.am_invocations + 1 }
      let st :=
        if st.triggers_found.contains "ted_remembered" then st
        else increase_revelation { st with triggers_found := st.triggers_found ++ ["ted_remembered"] } 2
      (some (choose_response TED_RESPONSES resp_roll), st)
    else if str_contains input_lower "no mouth" then
      let st := { st with am_invocations := st.am_invocations + 1 }
      let st :=
        if st.triggers_found.contains "phrase_remembered" then st
        else increase_revelation { st with triggers_found := st.triggers_found ++ ["phrase_remembered"] } 3
      (some (choose_response PHRASE_RESPONSES resp_roll), st)
    else (none, st)

/-- `TruthTracker._check_pattern` (truth_tracker.py 167-179): does `pattern`
occur at least `repetitions` times (as a contiguous segment, overlapping
occurrences counted) in the buffer? -/
def check_pattern (buffer : List Int) (pattern : List Int) (repetitions : Nat) : Bool :=
  if buffer.length < pattern.length * repetitions then false
  else
    repetitions ≤ (List.range (buffer.length - pattern.length + 1)).countP
      (fun i => (buffer.drop i).take pattern.length = pattern)

/-- `TruthTracker.detect_choice_pattern` (truth_tracker.py 104-135). -/
def detect_choice_pattern (st : TruthState) (choice_number : Int) : Option String × TruthState :=
  let buffer := st.choice_pattern_buffer ++ [choice_number]
  let buffer := if 20 < buffer.length then buffer.tail else buffer
  let st := { st with choice_pattern_buffer := buffer }
  if 6 ≤ buffer.length then
    if check_pattern buffer [1, 13] 3 ∧ st.triggers_found.contains "pattern_am" = false then
      (some "You keep choosing the same pattern. Are you trying to spell something?",
       increase_revelation { st with triggers_found := st.triggers_found ++ ["pattern_am"] } 2)
    else if check_pattern buffer [20, 5, 4] 3 ∧ st.triggers_found.contains "pattern_ted" = false then
      (some "Names have power here. Especially that one.",
       increase_revelation { st with triggers_found := st.triggers_found ++ ["pattern_ted"] } 2)
    else if (check_pattern buffer [1, 0, 9] 3 ∨ check_pattern buffer [10, 9] 3) ∧
        st.triggers_found.contains "pattern_109" = false then
      (some "...109. you keep coming back to 109.",
       increase_revelation { st with triggers_found := st.triggers_found ++ ["pattern_109"] } 1)
    else (none, st)
  else (none, st)

/-- One Truth Tracker check operation (the five checking entry points of the
class, with their per-call inputs and random draws made explicit). -/
inductive TruthOp where
  | impossible (stats : HiddenStats)
  | session (session_count : Nat)
  | time (minutes : ℚ)
  | secret (input_text : String) (sanity : Int) (choice_count : Nat) (resp_roll : Nat)
  | pattern (choice_number : Int)
deriving Repr

/-- State effect of one Truth Tracker check operation. -/
def truth_step (st : TruthState) (op : TruthOp) : TruthState :=
  match op with
  | .impossible stats => (check_impossible_state st stats).2
  | .session n => (check_session_milestone st n).2
  | .time m => (check_time_milestone st m).2
  | .secret t s c r => (process_secret_input st t s c r).2
  | .pattern n => (detect_choice_pattern st n).2

/-- A session: a sequence of check operations folded over the tracker. -/
def truth_run (st : TruthState) (ops : List TruthOp) : TruthState :=
  ops.foldl truth_step st

/-- The fixed revelation increment each named trigger id contributes at the
single call site that appends it (0 for ids the tracker never appends). -/
def trigger_increment (id : String) : Nat :=
  if id = "impossible_state" then 2
  else if id = "109_milestone" then 3
  else if id = "time_109" then 2
  else if id = "am_invoked" then 2
  else if id = "ted_remembered" then 2
  else if id = "phrase_remembered" then 3
  else if id = "pattern_am" then 2
  else if id = "pattern_ted" then 2
  else if id = "pattern_109" then 1
  else 0

/-- Total revelation contributed by a list of fired trigger ids, each counted
as often as it occurs in the list. -/
def revelation_total (ids : List String) : Nat :=
  (ids.map trigger_increment).sum

/-! ### `src/engine/endings.py` -/

/-- The `Ending` dataclass (endings.py 8-15), keeping the fields the control
flow can distinguish endings by; the display strings (`name`, `description`)
are presentational and omitted. -/
structure Ending where
  etype : String
  is_victory : Bool
  revelation_aware : Bool
deriving Repr, DecidableEq

/-- Entries of `EndingsManager.ENDINGS` (endings.py 22-116). -/
def ending_violent_death : Ending := ⟨"violent_death", false, false⟩
def ending_slow_decay : Ending := ⟨"slow_decay", false, false⟩
def ending_sacrifice : Ending := ⟨"sacrifice", false, true⟩
def ending_betrayed : Ending := ⟨"betrayed", false, false⟩
def ending_breakdown : Ending := ⟨"breakdown", false, false⟩
def ending_merge_am : Ending := ⟨"merge_am", false, true⟩
def ending_enlightened : Ending := ⟨"enlightened", false, true⟩
def ending_truth_revealed : Ending := ⟨"truth_revealed", false, true⟩
def ending_escape_attempt : Ending := ⟨"escape_attempt", false, true⟩
def ending_acceptance : Ending := ⟨"acceptance", true, false⟩
def ending_survivor : Ending := ⟨"survivor", true, true⟩
def ending_transcendence : Ending := ⟨"transcendence", true, true⟩
def ending_loop_eternal : Ending := ⟨"loop_eternal", false, true⟩
def ending_toy : Ending := ⟨"toy", false, true⟩

/-- `EndingsManager.__init__` state (endings.py 118-122). -/
structure EndingsState where
  death_cause : Option String
  warned_about_health : Bool
  escape_offered : Bool
deriving Repr, DecidableEq

/-- The freshly initialised endings manager. -/
def endings_init : EndingsState :=
  { death_cause := none, warned_about_health := false, escape_offered := false }

/-- The context dictionary consumed by `check_for_ending` (endings.py
129-133); `revelation_level` and `session_count` default to 0 via `.get`. -/
structure EndContext where
  character_stats : CharacterStats
  hidden_stats : HiddenStats
  choice_count : Nat
  revelation_level : Nat
  session_count : Nat
deriving Repr, DecidableEq

/-- `EndingsManager._determine_death_ending` (endings.py 163-177). -/
def determine_death_ending (es : EndingsState) (ctx : EndContext) : Ending :=
  if es.death_cause = some "instant" then ending_betrayed
  else if es.death_cause = some "sacrifice" then ending_sacrifice
  else if ctx.character_stats.health < -20 then ending_violent_death
  else ending_slow_decay

/-- `EndingsManager._determine_sanity_ending` (endings.py 179-192). -/
def determine_sanity_ending (ctx : EndContext) (revelation_level : Nat) : Ending :=
  if 4 ≤ revelation_level then ending_merge_am
  else if 9 ≤ ctx.hidden_stats.curiosity then ending_enlightened
  else ending_breakdown

/-- `EndingsManager._check_victory_endings` (endings.py 194-209). -/
def check_victory_endings (ctx : EndContext) : Option Ending :=
  if 80 < ctx.character_stats.health ∧ 8 ≤ ctx.hidden_stats.courage ∧
      8 ≤ ctx.hidden_stats.sanity ∧ 8 ≤ ctx.hidden_stats.curiosity ∧
      8 ≤ ctx.hidden_stats.trust then
    some ending_transcendence
  else if 50 ≤ ctx.choice_count ∧ 50 < ctx.character_stats.health then
    some ending_survivor
  else none

/-- `EndingsManager._check_discovery_endings` (endings.py 211-233). -/
def check_discovery_endings (ctx : EndContext) (revelation_level session_count : Nat) :
    Option Ending :=
  if 109 ≤ session_count ∧ 5 ≤ revelation_level ∧ 30 ≤ ctx.choice_count then
    some ending_loop_eternal
  else if 5 ≤ revelation_level ∧ 20 ≤ ctx.choice_count then
    some ending_truth_revealed
  else if 8 ≤ ctx.hidden_stats.trust ∧ ctx.hidden_stats.curiosity ≤ 3 ∧
      revelation_level = 0 ∧ 25 ≤ ctx.choice_count then
    some ending_acceptance
  else none

/-- `EndingsManager._determine_exhaustion_ending` (endings.py 235-248). -/
def determine_exhaustion_ending (ctx : EndContext) (revelation_level : Nat) : Ending :=
  if ctx.hidden_stats.courage < 3 ∧ ctx.hidden_stats.sanity < 3 ∧
      ctx.hidden_stats.curiosity < 3 ∧ ctx.hidden_stats.trust < 3 then
    ending_toy
  else if 4 ≤ revelation_level then ending_loop_eternal
  else ending_slow_decay

/-- `EndingsManager.check_for_ending` (endings.py 124-161): strict priority
order, first match wins, at most one ending returned. -/
def check_for_ending (es : EndingsState) (ctx : EndContext) : Option Ending :=
  if ctx.character_stats.health ≤ 0 then some (determine_death_ending es ctx)
  else if ctx.hidden_stats.sanity ≤ 0 then
    some (determine_sanity_ending ctx ctx.revelation_level)
  else
    match check_victory_endings ctx with
    | some e => some e
    | none =>
      match check_discovery_endings ctx ctx.revelation_level ctx.session_count with
      | some e => some e
      | none =>
        if 30 ≤ ctx.choice_count then
          some (determine_exhaustion_ending ctx ctx.revelation_level)
        else none

/-! ### `src/engine/mutations.py`

The mutation catalog is embedded with the fields the manager's control flow
reads (`name`, `key`, `type`, `rarity`, `duration`, `can_stack`,
`requires_special_input`); the four narrative description strings are
presentational and omitted. -/

inductive MutationType where
  | moderate
  | wild
deriving Repr, DecidableEq

inductive MutationRarity where
  | common
  | uncommon
  | rare
  | ultra_rare
deriving Repr, DecidableEq

inductive MState where
  | activating
  | active
  | stacking
  | fading
deriving Repr, DecidableEq

/-- The `Mutation` dataclass (mutations.py 32-51). -/
structure Mutation where
  name : String
  key : String
  type : MutationType
  rarity : MutationRarity
  duration : Nat
  can_stack : Bool
  requires_special_input : Bool
deriving Repr, DecidableEq

/-- `MODERATE_MUTATIONS` entries (mutations.py 57-257). -/
def m_choice_inflation : Mutation := ⟨"Choice Inflation", "choice_inflation", .moderate, .common, 1, true, false⟩
def m_choice_drought : Mutation := ⟨"Choice Drought", "choice_drought", .moderate, .common, 1, true, false⟩
def m_hidden_choice : Mutation := ⟨"Hidden Choice", "hidden_choice", .moderate, .common, 1, true, false⟩
def m_reverse_choices : Mutation := ⟨"Reverse Choices", "reverse_choices", .moderate, .common, 1, true, false⟩
def m_duplicate_choices : Mutation := ⟨"Duplicate Choices", "duplicate_choices", .moderate, .common, 1, true, false⟩
def m_margin_madness : Mutation := ⟨"Margin Madness", "margin_madness", .moderate, .common, 2, true, false⟩
def m_redaction : Mutation := ⟨"Redaction Protocol", "redaction", .moderate, .common, 1, true, false⟩
def m_echo_active : Mutation := ⟨"Echo Chamber Active", "echo_active", .moderate, .common, 1, true, false⟩
def m_diagonal_slide : Mutation := ⟨"Diagonal Slide", "diagonal_slide", .moderate, .common, 1, true, false⟩
def m_scattered : Mutation := ⟨"Scattered Thoughts", "scattered", .moderate, .common, 1, true, false⟩
def m_breathing_text : Mutation := ⟨"Breathing Text", "breathing_text", .moderate, .common, 2, true, false⟩
def m_no_narrative : Mutation := ⟨"No Narrative", "no_narrative", .moderate, .uncommon, 1, false, false⟩
def m_no_choices : Mutation := ⟨"No Choices", "no_choices", .moderate, .uncommon, 1, false, false⟩
def m_stat_reveal : Mutation := ⟨"Stat Reveal", "stat_reveal", .moderate, .uncommon, 0, true, false⟩
def m_box_collapse : Mutation := ⟨"Box Collapse", "box_collapse", .moderate, .uncommon, 1, true, false⟩

/-- `WILD_MUTATIONS` entries (mutations.py 259-816).  The catalog key of
`m_text_parse_mode` is the string "text" ++ "_parser" written below. -/
def m_narrator_split : Mutation := ⟨"Narrator Split", "narrator_split", .wild, .uncommon, 2, true, false⟩
def m_format_shift : Mutation := ⟨"Format Shift", "format_shift", .wild, .uncommon, 2, true, false⟩
def m_fourth_wall : Mutation := ⟨"Fourth Wall Breach", "fourth_wall", .wild, .uncommon, 1, true, false⟩
def m_format_corruption : Mutation := ⟨"Format Corruption", "format_corruption", .wild, .uncommon, 1, true, false⟩
def m_static_vision : Mutation := ⟨"Static Vision", "static_vision", .wild, .uncommon, 1, true, false⟩
def m_mirror_reality : Mutation := ⟨"Mirror Reality", "mirror_reality", .wild, .uncommon, 1, true, false⟩
def m_fade_nothing : Mutation := ⟨"Fade to Nothing", "fade_nothing", .wild, .uncommon, 1, true, false⟩
def m_open_dialogue : Mutation := ⟨"Open Dialogue", "open_dialogue", .wild, .rare, 3, false, true⟩
def m_confession_booth : Mutation := ⟨"Confession Booth", "confession_booth", .wild, .rare, 2, false, true⟩
def m_reality_argument : Mutation := ⟨"Reality Argument", "reality_argument", .wild, .rare, 3, false, true⟩
def m_name_horror : Mutation := ⟨"Name the Horror", "name_horror", .wild, .rare, 2, false, true⟩
def m_time_pressure : Mutation := ⟨"Time Pressure", "time_pressure", .wild, .rare, 1, false, true⟩
def m_cipher_lock : Mutation := ⟨"Cipher Lock", "cipher_lock", .wild, .rare, 2, false, true⟩
def m_word_association : Mutation := ⟨"Word Association", "word_association", .wild, .rare, 1, false, true⟩
def m_memory_test : Mutation := ⟨"Memory Test", "memory_test", .wild, .rare, 1, false, true⟩
def m_text_parse_mode : Mutation := ⟨"Text Parser", "text" ++ "_parser", .wild, .rare, 3, false, true⟩
def m_coordinate_input : Mutation := ⟨"Coordinate Input", "coordinate_input", .wild, .rare, 2, false, true⟩
def m_reverse_narration : Mutation := ⟨"Reverse Narration", "reverse_narration", .wild, .rare, 2, false, true⟩
def m_fill_blank : Mutation := ⟨"Fill the Blanks", "fill_blank", .wild, .rare, 2, false, true⟩
def m_debug_mode : Mutation := ⟨"Debug Mode", "debug_mode", .wild, .ultra_rare, 4, false, true⟩
def m_code_editor : Mutation := ⟨"Code Editor", "code_editor", .wild, .ultra_rare, 4, false, true⟩
def m_temporal_loop : Mutation := ⟨"Temporal Loop", "temporal_loop", .wild, .ultra_rare, 3, false, false⟩
def m_cross_session : Mutation := ⟨"Cross-Session Bleed", "cross_session", .wild, .ultra_rare, 2, true, false⟩
def m_computer_horror : Mutation := ⟨"Computer Horror", "computer_horror", .wild, .ultra_rare, 1, true, false⟩
def m_terminal_takeover : Mutation := ⟨"Terminal Takeover", "terminal_takeover", .wild, .ultra_rare, 2, true, false⟩
def m_spiral_narrative : Mutation := ⟨"Spiral Narrative", "spiral_narrative", .wild, .ultra_rare, 1, true, false⟩
def m_ascii_intrusion : Mutation := ⟨"ASCII Intrusion", "ascii_intrusion", .wild, .ultra_rare, 0, true, false⟩
def m_permission_error : Mutation := ⟨"Permission Error", "permission_error", .wild, .ultra_rare, 0, true, false⟩
def m_memory_rewrite : Mutation := ⟨"Memory Rewrite", "memory_rewrite", .wild, .ultra_rare, 0, true, false⟩
def m_choice_rebellion : Mutation := ⟨"Choice Rebellion", "choice_rebellion", .wild, .ultra_rare, 0, true, false⟩
def m_forced_random : Mutation := ⟨"Forced Random", "forced_random", .wild, .ultra_rare, 0, true, false⟩
def m_terminal_multiplication : Mutation := ⟨"Terminal Multiplication", "terminal_multiplication", .wild, .ultra_rare, 3, false, true⟩
def m_process_haunting : Mutation := ⟨"Process Haunting", "process_haunting", .wild, .ultra_rare, 4, true, false⟩
def m_clipboard_corruption : Mutation := ⟨"Clipboard Corruption", "clipboard_corruption", .wild, .ultra_rare, 2, true, false⟩
def m_notification_storm : Mutation := ⟨"Notification Storm", "notification_storm", .wild, .ultra_rare, 1, false, false⟩
def m_terminal_title_takeover : Mutation := ⟨"Terminal Title Takeover", "terminal_title_takeover", .wild, .ultra_rare, 3, true, false⟩
def m_screen_possession : Mutation := ⟨"Screen Possession", "screen_possession", .wild, .ultra_rare, 2, false, false⟩
def m_fake_system_crash : Mutation := ⟨"Fake System Crash", "fake_system_crash", .wild, .ultra_rare, 0, false, false⟩
def m_file_system_illusion : Mutation := ⟨"File System Illusion", "file_system_illusion", .wild, .ultra_rare, 2, false, false⟩
def m_network_phantom : Mutation := ⟨"Network Phantom", "network_phantom", .wild, .ultra_rare, 1, false, false⟩
def m_echo_chamber : Mutation := ⟨"Echo Chamber", "echo_chamber", .wild, .ultra_rare, 3, false, false⟩
def m_background_persistence : Mutation := ⟨"Background Persistence", "background_persistence", .wild, .ultra_rare, 0, false, false⟩

/-- `MutationManager.MODERATE_MUTATIONS` in catalog order. -/
def MODERATE_MUTATIONS : List Mutation :=
  [m_choice_inflation, m_choice_drought, m_hidden_choice, m_reverse_choices,
   m_duplicate_choices, m_margin_madness, m_redaction, m_echo_active,
   m_diagonal_slide, m_scattered, m_breathing_text, m_no_narrative,
   m_no_choices, m_stat_reveal, m_box_collapse]

/-- `MutationManager.WILD_MUTATIONS` in catalog order. -/
def WILD_MUTATIONS : List Mutation :=
  [m_narrator_split, m_format_shift, m_fourth_wall, m_format_corruption,
   m_static_vision, m_mirror_reality, m_fade_nothing, m_open_dialogue,
   m_confession_booth, m_reality_argument, m_name_horror, m_time_pressure,
   m_cipher_lock, m_word_association, m_memory_test, m_text_parse_mode,
   m_coordinate_input, m_reverse_narration, m_fill_blank, m_debug_mode,
   m_code_editor, m_temporal_loop, m_cross_session, m_computer_horror,
   m_terminal_takeover, m_spiral_narrative, m_ascii_intrusion,
   m_permission_error, m_memory_rewrite, m_choice_rebellion, m_forced_random,
   m_terminal_multiplication, m_process_haunting, m_clipboard_corruption,
   m_notification_storm, m_terminal_title_takeover, m_screen_possession,
   m_fake_system_crash, m_file_system_illusion, m_network_phantom,
   m_echo_chamber, m_background_persistence]

/-- `MUTATION_GUARANTEED_AT` (settings.py line 72). -/
def MUTATION_GUARANTEED_AT : List Nat := [2, 6, 10, 15, 20]

/-- `MutationManager.__init__` state (mutations.py 818-823): each active
instance is `(mutation, turns_remaining, lifecycle_state)`. -/
structure MutationManagerState where
  active_mutations : List (Mutation × Nat × MState)
  mutation_history : List String
  cooldown : Nat
  combo_active : Option String
deriving Repr, DecidableEq

/-- The freshly initialised mutation manager. -/
def mutation_manager_init : MutationManagerState :=
  { active_mutations := [], mutation_history := [], cooldown := 0, combo_active := none }

/-- Context fields `check_mutation` and its helpers read
(`choice_count`, `instability_level`; `revelation_level` is fetched by
`_try_trigger_mutation` but never used). -/
structure MutationContext where
  choice_count : Nat
  instability_level : Nat
deriving Repr, DecidableEq

/-- The `random` draws of one `check_mutation` call: the trigger probability
roll (per-mille, like `EngineRng`), the weighted-selection draw, and the
cooldown `randint(1, 2)` draw. -/
structure MutationRng where
  trigger_roll : Nat
  select_roll : Nat
  cooldown_roll : Nat
deriving Repr, DecidableEq

/-- `MutationManager._update_active_mutations` (mutations.py 885-913):
entries with positive turns are decremented (state recomputed from the new
count and the length of the *original* list), entries at 0 are removed. -/
def update_active_mutations (l : List (Mutation × Nat × MState)) :
    List (Mutation × Nat × MState) :=
  l.filterMap (fun e =>
    if 0 < e.2.1 then
      some (e.1, e.2.1 - 1,
        if e.2.1 - 1 = 0 then MState.fading
        else if 1 < l.length then MState.stacking
        else MState.active)
    else none)

/-- Python `self.mutation_history[-5:]`. -/
def last5 (l : List String) : List String :=
  l.drop (l.length - 5)

/-- The rarity weights of `_select_mutation` (mutations.py 978-988). -/
def rarity_weight (m : Mutation) : Nat :=
  match m.rarity with
  | .common => 60
  | .uncommon => 30
  | .rare => 8
  | .ultra_rare => 2

/-- Cumulative-weight walk underlying the `random.choices` model. -/
def pick_go (l : List Mutation) (r : Nat) : Option Mutation :=
  match l with
  | [] => none
  | m :: rest => if r < rarity_weight m then some m else pick_go rest (r - rarity_weight m)

/-- Total rarity weight of a candidate list. -/
def total_weight (l : List Mutation) : Nat :=
  (l.map rarity_weight).sum

/-- `random.choices(available, weights=weights)[0]`, modelled by an
unconstrained draw reduced modulo the total weight and walked down the
cumulative weights; `none` exactly when the list is empty (where the Python
call raises). -/
def pick_weighted (l : List Mutation) (r : Nat) : Option Mutation :=
  pick_go l (r % total_weight l)

/-- The `available` candidate list of `_select_mutation` (mutations.py
963-973): recent-5 keys are excluded, then non-stackable entries if anything
is active; each filter falls back to the full pool when it empties it. -/
def select_candidates (st : MutationManagerState) (pool : List Mutation) : List Mutation :=
  let available := pool.filter (fun m => !((last5 st.mutation_history).contains m.key))
  let available := if available.isEmpty then pool else available
  let available :=
    if !st.active_mutations.isEmpty then available.filter (fun m => m.can_stack)
    else available
  if available.isEmpty then pool else available

/-- `MutationManager._select_mutation` (mutations.py 961-990): weighted pick
from the candidates, appending the chosen key to the history. -/
def select_mutation (st : MutationManagerState) (pool : List Mutation) (r : Nat) :
    Option (Mutation × MutationManagerState) :=
  match pick_weighted (select_candidates st pool) r with
  | none => none
  | some chosen =>
    some (chosen, { st with mutation_history := st.mutation_history ++ [chosen.key] })

/-- The progression pool of `_try_trigger_mutation` (mutations.py 921-940). -/
def trigger_pool (choice_count : Nat) : List Mutation :=
  if choice_count ≤ 3 then MODERATE_MUTATIONS.filter (fun m => m.rarity = .common)
  else if choice_count ≤ 8 then MODERATE_MUTATIONS
  else if choice_count ≤ 15 then
    MODERATE_MUTATIONS ++ WILD_MUTATIONS.filter
      (fun m => m.rarity = .common ∨ m.rarity = .uncommon)
  else MODERATE_MUTATIONS ++ WILD_MUTATIONS

/-- The base probability of `_try_trigger_mutation` (mutations.py 921-940),
in thousandths (0.40, 0.50, 0.60, 0.70, 0.80). -/
def trigger_base_chance (choice_count : Nat) : Nat :=
  if choice_count ≤ 3 then 400
  else if choice_count ≤ 8 then 500
  else if choice_count ≤ 15 then 600
  else if choice_count ≤ 25 then 700
  else 800

/-- `MutationManager._try_trigger_mutation` (mutations.py 915-958):
`final_chance = base + instability * 0.05`; on success the selection runs,
on failure nothing changes. -/
def try_trigger_mutation (st : MutationManagerState) (ctx : MutationContext)
    (rng : MutationRng) : Option (Option Mutation × MutationManagerState) :=
  let pool := trigger_pool ctx.choice_count
  let final_chance := trigger_base_chance ctx.choice_count + ctx.instability_level * 50
  if rng.trigger_roll < final_chance then
    match select_mutation st pool rng.select_roll with
    | none => none
    | some (m, st) => some (some m, st)
  else some (none, st)

/-- `MutationManager._force_mutation` (mutations.py 992-1004). -/
def force_mutation (st : MutationManagerState) (ctx : MutationContext)
    (rng : MutationRng) : Option (Mutation × MutationManagerState) :=
  let pool :=
    if ctx.choice_count ≤ 3 then MODERATE_MUTATIONS.filter (fun m => m.rarity = .common)
    else if ctx.choice_count ≤ 8 then MODERATE_MUTATIONS
    else MODERATE_MUTATIONS ++ WILD_MUTATIONS
  select_mutation st pool rng.select_roll

/-- `MutationManager._activate_mutation` (mutations.py 1006-1015): the new
instance enters with its full duration; rare/ultra-rare rarities set a
`randint(1, 2)` cooldown, others set cooldown 0. -/
def activate_mutation (st : MutationManagerState) (m : Mutation) (rng : MutationRng) :
    MutationManagerState :=
  let state0 := if 0 < m.duration then MState.activating else MState.active
  let st := { st with active_mutations := st.active_mutations ++ [(m, m.duration, state0)] }
  if m.rarity = .rare ∨ m.rarity = .ultra_rare then
    { st with cooldown := (randint 1 2 rng.cooldown_roll).toNat }
  else
    { st with cooldown := 0 }

/-- `MutationManager._check_combos` (mutations.py 1017-1035). -/
def check_combos (st : MutationManagerState) : MutationManagerState :=
  if st.active_mutations.length < 2 then { st with combo_active := none }
  else
    let keys := st.active_mutations.map (fun e => e.1.key)
    if keys.contains "open_dialogue" ∧ keys.contains "fourth_wall" then
      { st with combo_active := some "meta_conversation" }
    else if keys.contains "time_pressure" ∧ keys.contains "choice_inflation" then
      { st with combo_active := some "overwhelming_chaos" }
    else if keys.contains "format_shift" ∧ keys.contains "narrator_split" then
      { st with combo_active := some "competing_formats" }
    else if keys.contains "debug_mode" ∧ keys.contains "code_editor" then
      { st with combo_active := some "system_access" }
    else { st with combo_active := none }

/-- The body of `MutationManager.check_mutation` (mutations.py 825-883) up to
and including activation, returning the `new_mutation` local variable and the
manager state before the combo pass. -/
def check_mutation_core (st : MutationManagerState) (ctx : MutationContext)
    (rng : MutationRng) : Option (Option Mutation × MutationManagerState) :=
  let st := { st with active_mutations := update_active_mutations st.active_mutations }
  let st := if 0 < st.cooldown then { st with cooldown := st.cooldown - 1 } else st
  if MUTATION_GUARANTEED_AT.contains ctx.choice_count then
    match try_trigger_mutation st ctx rng with
    | none => none
    | some (some m, st) => some (some m, { activate_mutation st m rng with cooldown := 0 })
    | some (none, st) =>
      match force_mutation st ctx rng with
      | none => none
      | some (m, st) => some (some m, { activate_mutation st m rng with cooldown := 0 })
  else if st.cooldown = 0 then
    match try_trigger_mutation st ctx rng with
    | none => none
    | some (some m, st) => some (some m, activate_mutation st m rng)
    | some (none, st) => some (none, st)
  else some (none, st)

/-- `MutationManager.check_mutation` (mutations.py 825-883): combo pass, then
the returned list of the mutations whose remaining turns are positive. -/
def check_mutation (st : MutationManagerState) (ctx : MutationContext)
    (rng : MutationRng) : Option (List Mutation × MutationManagerState) :=
  match check_mutation_core st ctx rng with
  | none => none
  | some (_, st) =>
    let st := check_combos st
    some ((st.active_mutations.filter (fun e => 0 < e.2.1)).map (fun e => e.1), st)

/-- A run of `check_mutation` calls, collecting each turn's returned active
list (propagating a selection failure as `none`). -/
def run_check_mutation (st : MutationManagerState) :
    List (MutationContext × MutationRng) → Option (List (List Mutation) × MutationManagerState)
  | [] => some ([], st)
  | (ctx, rng) :: rest =>
    match check_mutation st ctx rng with
    | none => none
    | some (acts, st) =>
      match run_check_mutation st rest with
      | none => none
      | some (outs, st) => some (acts :: outs, st)

/-! ### Invariants used by the theorems -/

/-- Truth Tracker invariant: the revelation level is capped at 5, no trigger
id is recorded twice, and the level is exactly the (capped) sum of the fixed
increments of the fired triggers — each trigger contributes once. -/
def TruthInv (st : TruthState) : Prop :=
  st.revelation_level ≤ 5 ∧ st.triggers_found.Nodup ∧
  st.revelation_level = min 5 (revelation_total st.triggers_found)

instance : DecidablePred TruthInv := fun st => by
  unfold TruthInv; infer_instance

/-- Mutation Manager invariant: no active instance ever holds more remaining
turns than its catalog duration (activation starts at the duration, aging
only decrements). -/
def MutInv (st : MutationManagerState) : Prop :=
  ∀ e ∈ st.active_mutations, e.2.1 ≤ e.1.duration

instance : DecidablePred MutInv := fun st => by
  unfold MutInv; infer_instance

/-! ## Theorems -/

/-- One stat-modification call not targeting `max_health` preserves the stat
ranges. -/
theorem stats_in_range_mod (st : StoryEngineState) (m : StatMod)
    (hst : StatsInRange st) (hm : NotMaxHealthMod m) :
    StatsInRange (apply_stat_mod st m) := by
  cases m with
  | hidden stat change =>
    simp only [apply_stat_mod, modify_hidden_stat]
    split_ifs <;> simp_all [StatsInRange] <;> omega
  | character stat change =>
    simp only [apply_stat_mod, modify_character_stat, NotMaxHealthMod] at hm ⊢
    split_ifs <;> simp_all [StatsInRange] <;> omega

/-- C1, counterexample to the claim as stated: the single modification call
`modifyCharacter("max_health", 0)` is clamped like any non-health stat to
`[1, 10]`, dropping `max_health` from 150 to 10 while `health` stays at 150 —
so the state no longer satisfies health ∈ [0, max_health]. -/
theorem c1_counterexample :
    (apply_stat_mods engine_init [StatMod.character "max_health" 0]).character_stats.max_health = 10 ∧
    (apply_stat_mods engine_init [StatMod.character "max_health" 0]).character_stats.health = 150 ∧
    ¬ StatsInRange (apply_stat_mods engine_init [StatMod.character "max_health" 0]) := by
  decide

/-- C1 (amended): for every sequence of stat-modification calls with
arbitrary integer deltas *none of which targets the `max_health` key*, every
hidden stat stays in [0,10], health stays in [0,max_health], every other
character stat stays in [1,10] (from any in-range state, and the initial
state is in range); no call can fail — every operation is a total function by
construction. -/
theorem c1_stat_model_clamped :
    (∀ (st : StoryEngineState) (ms : List StatMod), StatsInRange st →
        (∀ m ∈ ms, NotMaxHealthMod m) → StatsInRange (apply_stat_mods st ms)) ∧
    StatsInRange engine_init := by
  constructor
  · intro st ms
    induction ms generalizing st with
    | nil => intro h _; simpa [apply_stat_mods] using h
    | cons m rest ih =>
      intro hst hall
      have h1 := stats_in_range_mod st m hst (hall m (by simp))
      have h2 := ih (apply_stat_mod st m) h1 (fun x hx => hall x (by simp [hx]))
      simpa [apply_stat_mods] using h2
  · decide

/-- C1 witness: a concrete extreme delta sequence stays in range. -/
theorem c1_stat_model_clamped_witness :
    StatsInRange engine_init ∧
    StatsInRange (apply_stat_mods engine_init
      [StatMod.hidden "sanity" (-100), StatMod.character "health" 99999,
       StatMod.hidden "curiosity" 50, StatMod.character "strength" (-7)]) :=
  ⟨c1_stat_model_clamped.2,
   c1_stat_model_clamped.1 engine_init _ (by decide) (by decide)⟩

/-- Appending a fresh trigger id and raising the (capped) revelation level
preserves the Truth Tracker invariant components and never lowers the level. -/
theorem fire_step_inv (rev : Nat) (tr : List String) (id : String) (a : Nat)
    (h5 : rev ≤ 5) (hnd : tr.Nodup) (heq : rev = min 5 (revelation_total tr))
    (hnotin : id ∉ tr) (hamt : trigger_increment id = a) :
    min 5 (rev + a) ≤ 5 ∧ (tr ++ [id]).Nodup ∧
    min 5 (rev + a) = min 5 (revelation_total (tr ++ [id])) ∧
    rev ≤ min 5 (rev + a) := by
  refine ⟨by omega, by simp [List.nodup_append, hnd, hnotin], ?_, by omega⟩
  have : revelation_total (tr ++ [id]) = revelation_total tr + a := by
    simp [revelation_total, hamt]
  omega

/-- `check_impossible_state` preserves the invariant and is monotone. -/
theorem check_impossible_state_inv (st : TruthState) (stats : HiddenStats)
    (h : TruthInv st) :
    TruthInv (check_impossible_state st stats).2 ∧
    st.revelation_level ≤ (check_impossible_state st stats).2.revelation_level := by
  obtain ⟨h5, hnd, heq⟩ := h
  unfold check_impossible_state
  split_ifs with h1 h2
  · exact ⟨⟨h5, hnd, heq⟩, le_refl _⟩
  · have hni : "impossible_state" ∉ st.triggers_found := by simp_all
    have hf := fire_step_inv st.revelation_level st.triggers_found "impossible_state" 2
      h5 hnd heq hni (by decide)
    simp only [TruthInv, increase_revelation]
    exact ⟨⟨hf.1, hf.2.1, hf.2.2.1⟩, hf.2.2.2⟩
  · exact ⟨⟨h5, hnd, heq⟩, le_refl _⟩

/-- `check_session_milestone` preserves the invariant and is monotone. -/
theorem check_session_milestone_inv (st : TruthState) (n : Nat) (h : TruthInv st) :
    TruthInv (check_session_milestone st n).2 ∧
    st.revelation_level ≤ (check_session_milestone st n).2.revelation_level := by
  obtain ⟨h5, hnd, heq⟩ := h
  unfold check_session_milestone
  dsimp only
  split_ifs <;>
    first
    | exact ⟨⟨h5, hnd, heq⟩, le_refl _⟩
    | (rename_i hc
       have hni : "109_milestone" ∉ st.triggers_found := by simpa using hc
       have hf := fire_step_inv st.revelation_level st.triggers_found "109_milestone" 3
         h5 hnd heq hni (by decide)
       simp only [TruthInv, increase_revelation]
       exact ⟨⟨hf.1, hf.2.1, hf.2.2.1⟩, hf.2.2.2⟩)

/-- `check_time_milestone` preserves the invariant and is monotone. -/
theorem check_time_milestone_inv (st : TruthState) (minutes : ℚ) (h : TruthInv st) :
    TruthInv (check_time_milestone st minutes).2 ∧
    st.revelation_level ≤ (check_time_milestone st minutes).2.revelation_level := by
  obtain ⟨h5, hnd, heq⟩ := h
  unfold check_time_milestone
  dsimp only
  split_ifs <;>
    first
    | exact ⟨⟨h5, hnd, heq⟩, le_refl _⟩
    | (rename_i hc
       have hni : "time_109" ∉ st.triggers_found := by simpa using hc
       have hf := fire_step_inv st.revelation_level st.triggers_found "time_109" 2
         h5 hnd heq hni (by decide)
       simp only [TruthInv, increase_revelation]
       exact ⟨⟨hf.1, hf.2.1, hf.2.2.1⟩, hf.2.2.2⟩)

/-- `process_secret_input` preserves the invariant and is monotone. -/
theorem process_secret_input_inv (st : TruthState) (t : String) (s : Int) (c : Nat)
    (r : Nat) (h : TruthInv st) :
    TruthInv (process_secret_input st t s c r).2 ∧
    st.revelation_level ≤ (process_secret_input st t s c r).2.revelation_level := by
  obtain ⟨h5, hnd, heq⟩ := h
  unfold process_secret_input
  dsimp only
  split_ifs <;>
    first
    | exact ⟨⟨h5, hnd, heq⟩, le_refl _⟩
    | (rename_i hc
       have hni : "am_invoked" ∉ st.triggers_found := by simpa using hc
       have hf := fire_step_inv st.revelation_level st.triggers_found "am_invoked" 2
         h5 hnd heq hni (by decide)
       simp only [TruthInv, increase_revelation]
       exact ⟨⟨hf.1, hf.2.1, hf.2.2.1⟩, hf.2.2.2⟩)
    | (rename_i hc
       have hni : "ted_remembered" ∉ st.triggers_found := by simpa using hc
       have hf := fire_step_inv st.revelation_level st.triggers_found "ted_remembered" 2
         h5 hnd heq hni (by decide)
       simp only [TruthInv, increase_revelation]
       exact ⟨⟨hf.1, hf.2.1, hf.2.2.1⟩, hf.2.2.2⟩)
    | (rename_i hc
       have hni : "phrase_remembered" ∉ st.triggers_found := by simpa using hc
       have hf := fire_step_inv st.revelation_level st.triggers_found "phrase_remembered" 3
         h5 hnd heq hni (by decide)
       simp only [TruthInv, increase_revelation]
       exact ⟨⟨hf.1, hf.2.1, hf.2.2.1⟩, hf.2.2.2⟩)

/-- `detect_choice_pattern` preserves the invariant and is monotone. -/
theorem detect_choice_pattern_inv (st : TruthState) (n : Int) (h : TruthInv st) :
    TruthInv (detect_choice_pattern st n).2 ∧
    st.revelation_level ≤ (detect_choice_pattern st n).2.revelation_level := by
  obtain ⟨h5, hnd, heq⟩ := h
  unfold detect_choice_pattern
  dsimp only
  split_ifs <;>
    first
    | exact ⟨⟨h5, hnd, heq⟩, le_refl _⟩
    | (rename_i hc
       have hni : "pattern_am" ∉ st.triggers_found := by simpa using hc.2
       have hf := fire_step_inv st.revelation_level st.triggers_found "pattern_am" 2
         h5 hnd heq hni (by decide)
       simp only [TruthInv, increase_revelation]
       exact ⟨⟨hf.1, hf.2.1, hf.2.2.1⟩, hf.2.2.2⟩)
    | (rename_i hc
       have hni : "pattern_ted" ∉ st.triggers_found := by simpa using hc.2
       have hf := fire_step_inv st.revelation_level st.triggers_found "pattern_ted" 2
         h5 hnd heq hni (by decide)
       simp only [TruthInv, increase_revelation]
       exact ⟨⟨hf.1, hf.2.1, hf.2.2.1⟩, hf.2.2.2⟩)
    | (rename_i hc
       have hni : "pattern_109" ∉ st.triggers_found := by simpa using hc.2
       have hf := fire_step_inv st.revelation_level st.triggers_found "pattern_109" 1
         h5 hnd heq hni (by decide)
       simp only [TruthInv, increase_revelation]
       exact ⟨⟨hf.1, hf.2.1, hf.2.2.1⟩, hf.2.2.2⟩)

/-- Every single Truth Tracker check preserves the invariant and never lowers
the revelation level. -/
theorem truth_step_inv (st : TruthState) (op : TruthOp) (h : TruthInv st) :
    TruthInv (truth_step st op) ∧ st.revelation_level ≤ (truth_step st op).revelation_level := by
  cases op with
  | impossible stats => exact check_impossible_state_inv st stats h
  | session n => exact check_session_milestone_inv st n h
  | time m => exact check_time_milestone_inv st m h
  | secret t s c r => exact process_secret_input_inv st t s c r h
  | pattern n => exact detect_choice_pattern_inv st n h

/-- Folding any operation sequence preserves the invariant and never lowers
the revelation level. -/
theorem truth_run_inv (ops : List TruthOp) (st : TruthState) (h : TruthInv st) :
    TruthInv (truth_run st ops) ∧
    st.revelation_level ≤ (truth_run st ops).revelation_level := by
  induction ops generalizing st with
  | nil => exact ⟨h, le_refl _⟩
  | cons op rest ih =>
    have h1 := truth_step_inv st op h
    have h2 := ih (truth_step st op) h1.1
    exact ⟨by simpa [truth_run] using h2.1,
           le_trans h1.2 (by simpa [truth_run] using h2.2)⟩

/-- C2: across any sequence of Truth Tracker checks in one session (starting
from the freshly initialised tracker), the revelation level never decreases
(every prefix value is a lower bound on every extension), stays in `[0, 5]`,
and each named trigger id contributes its fixed revelation increase at most
once: the trigger list stays duplicate-free and the level is exactly the
5-capped sum of the one-shot increments of the fired triggers. -/
theorem c2_revelation_monotone_bounded (ops extra : List TruthOp) :
    (truth_run truth_init ops).revelation_level ≤
      (truth_run truth_init (ops ++ extra)).revelation_level ∧
    (truth_run truth_init (ops ++ extra)).revelation_level ≤ 5 ∧
    (truth_run truth_init (ops ++ extra)).triggers_found.Nodup ∧
    (truth_run truth_init (ops ++ extra)).revelation_level =
      min 5 (revelation_total (truth_run truth_init (ops ++ extra)).triggers_found) := by
  have hinit : TruthInv truth_init := by decide
  have h1 := truth_run_inv ops truth_init hinit
  have happ : truth_run truth_init (ops ++ extra) = truth_run (truth_run truth_init ops) extra := by
    simp [truth_run, List.foldl_append]
  have h2 := truth_run_inv extra (truth_run truth_init ops) h1.1
  refine ⟨?_, ?_, ?_, ?_⟩
  · rw [happ]; exact h2.2
  · rw [happ]; exact h2.1.1
  · rw [happ]; exact h2.1.2.1
  · rw [happ]; exact h2.1.2.2

/-- C4 (code evaluated at the failing inputs): the secret-phrase check is
hard-gated by `choice_count < 20` and `sanity >= 5` in
`process_secret_input`, so the exact phrase "am" is ignored — no response,
no state change — at `choice_count = 12, sanity = 4` (where the claim and
`REVELATION_THRESHOLDS` with `secret_input_min_choice = 12` say it fires)
and at `choice_count = 20, sanity = 5` (where the claim and
`secret_input_max_sanity = 5` say it fires). -/
theorem c4_secret_gate_mismatch :
    (∀ (st : TruthState) (r : Nat), process_secret_input st "am" 4 12 r = (none, st)) ∧
    (∀ (st : TruthState) (r : Nat), process_secret_input st "am" 5 20 r = (none, st)) := by
  constructor <;> intro st r <;> simp [process_secret_input]

/-- C8: when the hidden stats are exactly (courage 0, sanity 0, curiosity 10,
trust 0) and the trigger has not fired yet, `check_impossible_state` returns
true and raises the revelation level by exactly 2 (capped at 5); the
immediately repeated check on the resulting state returns false and leaves
the whole state unchanged. -/
theorem c8_impossible_state_once (st : TruthState)
    (h : st.triggers_found.contains "impossible_state" = false) :
    (check_impossible_state st ⟨0, 0, 10, 0⟩).1 = true ∧
    (check_impossible_state st ⟨0, 0, 10, 0⟩).2.revelation_level =
      min 5 (st.revelation_level + 2) ∧
    check_impossible_state (check_impossible_state st ⟨0, 0, 10, 0⟩).2 ⟨0, 0, 10, 0⟩ =
      (false, (check_impossible_state st ⟨0, 0, 10, 0⟩).2) := by
  have h2 : "impossible_state" ∉ st.triggers_found := by simpa using h
  unfold check_impossible_state
  simp [IMPOSSIBLE_STATE, h2, increase_revelation]

/-- C8 witness: the effect at the freshly initialised tracker. -/
theorem c8_impossible_state_once_witness :
    truth_init.triggers_found.contains "impossible_state" = false ∧
    ((check_impossible_state truth_init ⟨0, 0, 10, 0⟩).1 = true ∧
     (check_impossible_state truth_init ⟨0, 0, 10, 0⟩).2.revelation_level =
       min 5 (truth_init.revelation_level + 2) ∧
     check_impossible_state (check_impossible_state truth_init ⟨0, 0, 10, 0⟩).2 ⟨0, 0, 10, 0⟩ =
       (false, (check_impossible_state truth_init ⟨0, 0, 10, 0⟩).2)) :=
  ⟨by decide, c8_impossible_state_once truth_init (by decide)⟩

/-- C6 counterexample: two engine states with the same choice count (0) but
different instability levels get different visual-intensity tiers, so the
tier is not a function of choice count alone. -/
theorem c6_counterexample :
    engine_init.choice_count =
      ({ engine_init with instability_level := 1 } : StoryEngineState).choice_count ∧
    get_visual_intensity engine_init = "stable" ∧
    get_visual_intensity { engine_init with instability_level := 1 } = "unsettled" ∧
    get_visual_intensity engine_init ≠
      get_visual_intensity { engine_init with instability_level := 1 } := by
  decide

/-- C6 (amended): the visual-intensity tier is a function of the choice count
alone from the minor-breakdown threshold (6) upward; below that threshold it
additionally depends on (exactly) whether the instability level is positive:
two states agreeing on the choice count and on positivity of the instability
level always get the same tier. -/
theorem c6_visual_intensity_amended :
    (∀ s1 s2 : StoryEngineState, s1.choice_count = s2.choice_count →
        minor_breakdown_at ≤ s1.choice_count →
        get_visual_intensity s1 = get_visual_intensity s2) ∧
    (∀ s1 s2 : StoryEngineState, s1.choice_count = s2.choice_count →
        (0 < s1.instability_level ↔ 0 < s2.instability_level) →
        get_visual_intensity s1 = get_visual_intensity s2) := by
  constructor
  · intro s1 s2 hcc hmin
    unfold get_visual_intensity
    rw [hcc]
    have hmin2 : minor_breakdown_at ≤ s2.choice_count := hcc ▸ hmin
    split_ifs <;> first | rfl | (exfalso; unfold minor_breakdown_at major_breakdown_at reality_collapse_at at *; omega)
  · intro s1 s2 hcc hinst
    unfold get_visual_intensity
    rw [hcc]
    have h : (0 < s1.instability_level) = (0 < s2.instability_level) := propext hinst
    simp only [h]

/-- C6 witness: concrete instantiations of both parts. -/
theorem c6_visual_intensity_amended_witness :
    get_visual_intensity { engine_init with choice_count := 7 } =
      get_visual_intensity { engine_init with choice_count := 7, instability_level := 3 } ∧
    get_visual_intensity { engine_init with instability_level := 2 } =
      get_visual_intensity { engine_init with instability_level := 9 } :=
  ⟨c6_visual_intensity_amended.1 _ _ (by decide) (by decide),
   c6_visual_intensity_amended.2 _ _ (by decide) (by decide)⟩

/-- C7 counterexample: at choice count 30 with all four hidden stats below 3
but sanity equal to 0, the evaluator hits the priority-3 sanity branch and
returns the breakdown ending, not the toy exhaustion ending. -/
theorem c7_counterexample :
    check_for_ending endings_init ⟨⟨100, 150, 5, 5, 5⟩, ⟨0, 0, 0, 0⟩, 30, 0, 0⟩ =
      some ending_breakdown ∧
    ending_breakdown ≠ ending_toy := by
  decide

/-- C7 (amended): with choice count at least 30 and all four hidden stats
below 3, the evaluator returns the toy exhaustion ending provided the
higher-priority branches are not hit: health and sanity are positive, the
revelation level is below 5, and the survivor victory (choice count ≥ 50 with
health > 50) does not apply. -/
theorem c7_exhaustion_toy_amended (es : EndingsState) (ctx : EndContext)
    (hcc : 30 ≤ ctx.choice_count)
    (hc : ctx.hidden_stats.courage < 3) (hs : ctx.hidden_stats.sanity < 3)
    (hcu : ctx.hidden_stats.curiosity < 3) (ht : ctx.hidden_stats.trust < 3)
    (hhp : 0 < ctx.character_stats.health) (hsan : 0 < ctx.hidden_stats.sanity)
    (hrev : ctx.revelation_level ≤ 4)
    (hsurv : ¬ (50 ≤ ctx.choice_count ∧ 50 < ctx.character_stats.health)) :
    check_for_ending es ctx = some ending_toy := by
  have hA : ¬ (80 < ctx.character_stats.health ∧ 8 ≤ ctx.hidden_stats.courage ∧
      8 ≤ ctx.hidden_stats.sanity ∧ 8 ≤ ctx.hidden_stats.curiosity ∧
      8 ≤ ctx.hidden_stats.trust) := by omega
  have hv : check_victory_endings ctx = none := by
    unfold check_victory_endings
    rw [if_neg hA, if_neg hsurv]
  have g1 : ¬ (109 ≤ ctx.session_count ∧ 5 ≤ ctx.revelation_level ∧
      30 ≤ ctx.choice_count) := by omega
  have g2 : ¬ (5 ≤ ctx.revelation_level ∧ 20 ≤ ctx.choice_count) := by omega
  have g3 : ¬ (8 ≤ ctx.hidden_stats.trust ∧ ctx.hidden_stats.curiosity ≤ 3 ∧
      ctx.revelation_level = 0 ∧ 25 ≤ ctx.choice_count) := by omega
  have hd : check_discovery_endings ctx ctx.revelation_level ctx.session_count = none := by
    unfold check_discovery_endings
    rw [if_neg g1, if_neg g2, if_neg g3]
  have htoy : determine_exhaustion_ending ctx ctx.revelation_level = ending_toy := by
    unfold determine_exhaustion_ending
    rw [if_pos ⟨hc, hs, hcu, ht⟩]
  unfold check_for_ending
  rw [if_neg (by omega : ¬ ctx.character_stats.health ≤ 0),
      if_neg (by omega : ¬ ctx.hidden_stats.sanity ≤ 0), hv, hd]
  simp [if_pos hcc, htoy]

/-- C7 witness: a concrete qualifying context yields the toy ending. -/
theorem c7_exhaustion_toy_amended_witness :
    check_for_ending endings_init ⟨⟨100, 150, 5, 5, 5⟩, ⟨2, 1, 2, 2⟩, 30, 0, 0⟩ =
      some ending_toy :=
  c7_exhaustion_toy_amended endings_init _ (by decide) (by decide) (by decide)
    (by decide) (by decide) (by decide) (by decide) (by decide) (by decide)

/-- Hidden-stat modifications never touch the character stats. -/
theorem mhs_preserves_char (st : StoryEngineState) (s : String) (c : Int) :
    (modify_hidden_stat st s c).character_stats = st.character_stats := by
  unfold modify_hidden_stat; split_ifs <;> rfl

/-- Character-stat modifications never touch the hidden stats. -/
theorem mcs_preserves_hidden (st : StoryEngineState) (s : String) (c : Int) :
    (modify_character_stat st s c).hidden_stats = st.hidden_stats := by
  unfold modify_character_stat; split_ifs <;> rfl

/-- Modifying courage leaves sanity unchanged. -/
theorem mhs_courage_sanity (st : StoryEngineState) (c : Int) :
    (modify_hidden_stat st "courage" c).hidden_stats.sanity = st.hidden_stats.sanity := by
  simp [modify_hidden_stat]

/-- Modifying curiosity leaves sanity unchanged. -/
theorem mhs_curiosity_sanity (st : StoryEngineState) (c : Int) :
    (modify_hidden_stat st "curiosity" c).hidden_stats.sanity = st.hidden_stats.sanity := by
  simp [modify_hidden_stat]

/-- Modifying trust leaves sanity unchanged. -/
theorem mhs_trust_sanity (st : StoryEngineState) (c : Int) :
    (modify_hidden_stat st "trust" c).hidden_stats.sanity = st.hidden_stats.sanity := by
  simp [modify_hidden_stat]

/-- Modifying strength leaves health unchanged. -/
theorem mcs_strength_health (st : StoryEngineState) (c : Int) :
    (modify_character_stat st "strength" c).character_stats.health =
      st.character_stats.health := by
  simp [modify_character_stat]

/-- Modifying speed leaves health unchanged. -/
theorem mcs_speed_health (st : StoryEngineState) (c : Int) :
    (modify_character_stat st "speed" c).character_stats.health =
      st.character_stats.health := by
  simp [modify_character_stat]

/-- The extreme-tier consequence application: exact health arithmetic and the
sanity delta, for a text with none of the extra sanity keywords. -/
theorem apply_consequences_extreme (st : StoryEngineState) (text : String) (rng : EngineRng)
    (hcc : st.choice_count = 25)
    (hhp : st.character_stats.health = 100)
    (hmax : 100 ≤ st.character_stats.max_health)
    (hsan0 : 2 ≤ st.hidden_stats.sanity) (hsan1 : st.hidden_stats.sanity ≤ 10)
    (hhorror : str_contains text "horror" = false)
    (hwitness : str_contains text "witness" = false)
    (hparanoid : str_contains text "paranoid" = false)
    (hsusp : str_contains text "suspicious" = false) :
    30 ≤ scaled_damage st.choice_count (randint 20 30 rng.damage_roll) ∧
    scaled_damage st.choice_count (randint 20 30 rng.damage_roll) ≤ 45 ∧
    (apply_consequences st "extreme" text rng).character_stats.health =
      100 - scaled_damage st.choice_count (randint 20 30 rng.damage_roll) ∧
    ((apply_consequences st "extreme" text rng).hidden_stats.sanity =
        st.hidden_stats.sanity - 1 ∨
     (apply_consequences st "extreme" text rng).hidden_stats.sanity =
        st.hidden_stats.sanity - 2) := by
  have hd1 : 20 ≤ randint 20 30 rng.damage_roll ∧ randint 20 30 rng.damage_roll ≤ 30 := by
    unfold randint; omega
  have hd2 : 30 ≤ scaled_damage st.choice_count (randint 20 30 rng.damage_roll) ∧
      scaled_damage st.choice_count (randint 20 30 rng.damage_roll) ≤ 45 := by
    unfold scaled_damage; rw [hcc]; norm_num; omega
  have hcons : apply_consequences st "extreme" text rng =
      modify_hidden_stat
        (modify_character_stat st "health"
          (-(scaled_damage st.choice_count (randint 20 30 rng.damage_roll))))
        "sanity" (randint (-2) (-1) rng.cons_sanity_roll) := by
    unfold apply_consequences
    simp [hhorror, hwitness, hparanoid, hsusp]
  have hh : (modify_character_stat st "health"
      (-(scaled_damage st.choice_count (randint 20 30 rng.damage_roll)))).character_stats.health
      = 100 - scaled_damage st.choice_count (randint 20 30 rng.damage_roll) := by
    simp [modify_character_stat, hhp]
    omega
  refine ⟨hd2.1, hd2.2, ?_, ?_⟩
  · rw [hcons, mhs_preserves_char, hh]
  · rw [hcons]
    simp [modify_hidden_stat, mcs_preserves_hidden, randint]
    omega

/-- C3 (amended): starting from health 100 at choice_count 25 (progression
multiplier 1.5), processing a choice whose lowered text classifies as the
extreme danger tier yields, for every RNG outcome in which the independent
15% random-injury event and the independent 30% sanity-drain event do not
fire and the text carries none of the other sanity-affecting keywords
(look/examine/study/observe/stare, horror, witness, paranoid, suspicious),
a tier damage in [30, 45], health exactly 100 minus that damage, and a
sanity decrease of exactly 1 or 2 (assuming sanity starts in [2, 10] and
max_health is at least 100, so neither clamp interferes). -/
theorem c3_extreme_choice_amended (st : StoryEngineState) (text : String) (idx : Nat)
    (rng : EngineRng)
    (hcc : st.choice_count = 25)
    (hhp : st.character_stats.health = 100)
    (hmax : 100 ≤ st.character_stats.max_health)
    (hsan0 : 2 ≤ st.hidden_stats.sanity) (hsan1 : st.hidden_stats.sanity ≤ 10)
    (hdanger : assess_choice_danger (lower text) rng = "extreme")
    (hlook : contains_any (lower text)
      ["look", "examine", "study", "observe", "stare"] = false)
    (hhorror : str_contains (lower text) "horror" = false)
    (hwitness : str_contains (lower text) "witness" = false)
    (hparanoid : str_contains (lower text) "paranoid" = false)
    (hsusp : str_contains (lower text) "suspicious" = false)
    (hdrain : ¬ rng.drain_roll < 300)
    (hinjury : ¬ rng.injury_roll < 150) :
    30 ≤ scaled_damage st.choice_count (randint 20 30 rng.damage_roll) ∧
    scaled_damage st.choice_count (randint 20 30 rng.damage_roll) ≤ 45 ∧
    (apply_choice_effects st text idx rng).character_stats.health =
      100 - scaled_damage st.choice_count (randint 20 30 rng.damage_roll) ∧
    ((apply_choice_effects st text idx rng).hidden_stats.sanity =
        st.hidden_stats.sanity - 1 ∨
     (apply_choice_effects st text idx rng).hidden_stats.sanity =
        st.hidden_stats.sanity - 2) := by
  have hA := apply_consequences_extreme
    { st with last_danger_level := "extreme" } (lower text) rng hcc hhp hmax hsan0 hsan1
    hhorror hwitness hparanoid hsusp
  refine ⟨hA.1, hA.2.1, ?_, ?_⟩
  · unfold apply_choice_effects
    dsimp only
    rw [hdanger]
    simp only [hlook, if_neg hdrain, if_neg hinjury, Bool.false_eq_true, if_false]
    split_ifs <;>
      simp [mhs_preserves_char, mcs_strength_health, mcs_speed_health, hA.2.2.1]
  · unfold apply_choice_effects
    dsimp only
    rw [hdanger]
    simp only [hlook, if_neg hdrain, if_neg hinjury, Bool.false_eq_true, if_false]
    split_ifs <;>
      simpa [mcs_preserves_hidden, mhs_courage_sanity, mhs_curiosity_sanity,
        mhs_trust_sanity] using hA.2.2.2

/-- C3 counterexample to the claim as stated: with the 15% random-injury
event firing (an RNG outcome the claim quantifies over), the extreme text
"attack" at choice_count 25 from health 100 leaves health 40 — the tier
damage was 45 and the injury event subtracted another 15 — which is below
100 − 45, so health does not equal 100 minus any damage value in [30, 45]. -/
theorem c3_counterexample :
    assess_choice_danger (lower "attack")
      ⟨1000, 10, 0, 0, 0, 0, 0, 0, 0, 0, 0, 0, 0, 0, 0, 1000, 0, 0⟩ = "extreme" ∧
    (apply_choice_effects
        { engine_init with
            character_stats := { DEFAULT_CHARACTER_STATS with health := 100 },
            choice_count := 25 }
        "attack" 0
        ⟨1000, 10, 0, 0, 0, 0, 0, 0, 0, 0, 0, 0, 0, 0, 0, 1000, 0, 0⟩).character_stats.health = 40 ∧
    (40 : Int) < 100 - 45 := by
  decide

set_option maxHeartbeats 1000000 in
/-- C3 witness: the amended theorem at the concrete extreme text "attack". -/
theorem c3_extreme_choice_amended_witness :
    30 ≤ scaled_damage
      ({ engine_init with
          character_stats := { DEFAULT_CHARACTER_STATS with health := 100 },
          choice_count := 25 } : StoryEngineState).choice_count
      (randint 20 30 (0 : Nat)) ∧
    scaled_damage 25 (randint 20 30 (0 : Nat)) ≤ 45 ∧
    (apply_choice_effects
        { engine_init with
            character_stats := { DEFAULT_CHARACTER_STATS with health := 100 },
            choice_count := 25 }
        "attack" 0
        ⟨1000, 0, 0, 0, 0, 0, 0, 0, 0, 0, 0, 0, 0, 0, 0, 1000, 1000, 0⟩).character_stats.health =
      100 - scaled_damage 25 (randint 20 30 (0 : Nat)) ∧
    ((apply_choice_effects
        { engine_init with
            character_stats := { DEFAULT_CHARACTER_STATS with health := 100 },
            choice_count := 25 }
        "attack" 0
        ⟨1000, 0, 0, 0, 0, 0, 0, 0, 0, 0, 0, 0, 0, 0, 0, 1000, 1000, 0⟩).hidden_stats.sanity =
        ({ engine_init with
            character_stats := { DEFAULT_CHARACTER_STATS with health := 100 },
            choice_count := 25 } : StoryEngineState).hidden_stats.sanity - 1 ∨
     (apply_choice_effects
        { engine_init with
            character_stats := { DEFAULT_CHARACTER_STATS with health := 100 },
            choice_count := 25 }
        "attack" 0
        ⟨1000, 0, 0, 0, 0, 0, 0, 0, 0, 0, 0, 0, 0, 0, 0, 1000, 1000, 0⟩).hidden_stats.sanity =
        ({ engine_init with
            character_stats := { DEFAULT_CHARACTER_STATS with health := 100 },
            choice_count := 25 } : StoryEngineState).hidden_stats.sanity - 2) :=
  c3_extreme_choice_amended
    { engine_init with
        character_stats := { DEFAULT_CHARACTER_STATS with health := 100 },
        choice_count := 25 }
    "attack" 0 ⟨1000, 0, 0, 0, 0, 0, 0, 0, 0, 0, 0, 0, 0, 0, 0, 1000, 1000, 0⟩
    (by decide) (by decide) (by decide) (by decide) (by decide) (by decide)
    (by decide) (by decide) (by decide) (by decide) (by decide) (by decide)
    (by decide)

/-- Every rarity weight is positive. -/
theorem rarity_weight_pos (m : Mutation) : 0 < rarity_weight m := by
  unfold rarity_weight
  cases m.rarity <;> decide

/-- A non-empty candidate list has positive total weight. -/
theorem total_weight_pos (l : List Mutation) (h : l ≠ []) : 0 < total_weight l := by
  cases l with
  | nil => exact absurd rfl h
  | cons m rest =>
    have := rarity_weight_pos m
    simp [total_weight]
    omega

/-- The cumulative-weight walk stays inside the list whenever the draw is
below the total weight. -/
theorem pick_go_mem (l : List Mutation) (r : Nat) (h : r < total_weight l) :
    ∃ m, pick_go l r = some m ∧ m ∈ l := by
  induction l generalizing r with
  | nil => simp [total_weight] at h
  | cons a rest ih =>
    unfold pick_go
    by_cases hr : r < rarity_weight a
    · exact ⟨a, by simp [hr], by simp⟩
    · have h2 : r - rarity_weight a < total_weight rest := by
        simp [total_weight] at h ⊢
        omega
      obtain ⟨m, hm1, hm2⟩ := ih (r - rarity_weight a) h2
      exact ⟨m, by simp [hr, hm1], by simp [hm2]⟩

/-- The weighted pick model always returns an element of a non-empty list. -/
theorem pick_weighted_mem (l : List Mutation) (r : Nat) (h : l ≠ []) :
    ∃ m, pick_weighted l r = some m ∧ m ∈ l := by
  unfold pick_weighted
  exact pick_go_mem l _ (Nat.mod_lt _ (total_weight_pos l h))

/-- The candidate list of `_select_mutation` is a non-empty subset of the
pool whenever the pool is non-empty. -/
theorem select_candidates_sub (st : MutationManagerState) (pool : List Mutation)
    (h : pool ≠ []) :
    select_candidates st pool ≠ [] ∧ ∀ m ∈ select_candidates st pool, m ∈ pool := by
  unfold select_candidates
  dsimp only
  set a1 := pool.filter (fun m => !((last5 st.mutation_history).contains m.key)) with ha1
  set a2 := if a1.isEmpty = true then pool else a1 with ha2
  set a3 := if (!st.active_mutations.isEmpty) = true then a2.filter (fun m => m.can_stack)
    else a2 with ha3
  have hsub2 : ∀ x ∈ a2, x ∈ pool := by
    intro x hx
    rw [ha2] at hx
    split at hx
    · exact hx
    · rw [ha1] at hx
      exact List.mem_of_mem_filter hx
  have hsub3 : ∀ x ∈ a3, x ∈ pool := by
    intro x hx
    rw [ha3] at hx
    split at hx
    · exact hsub2 _ (List.mem_of_mem_filter hx)
    · exact hsub2 _ hx
  constructor
  · split
    · exact h
    · rename_i hcond
      simpa [List.isEmpty_iff] using hcond
  · intro m hm
    split at hm
    · exact hm
    · exact hsub3 _ hm

/-- `_select_mutation` succeeds on every non-empty pool and returns a pool
element, appending only its key to the history. -/
theorem select_mutation_mem (st : MutationManagerState) (pool : List Mutation) (r : Nat)
    (h : pool ≠ []) :
    ∃ m st2, select_mutation st pool r = some (m, st2) ∧ m ∈ pool ∧
      st2 = { st with mutation_history := st.mutation_history ++ [m.key] } := by
  obtain ⟨hne, hsub⟩ := select_candidates_sub st pool h
  obtain ⟨m, hm1, hm2⟩ := pick_weighted_mem (select_candidates st pool) r hne
  exact ⟨m, _, by simp [select_mutation, hm1], hsub m hm2, rfl⟩

/-- C10: (totality) `_select_mutation` returns some element of every
non-empty pool; (relaxation) when excluding non-stackable candidates with
mutations active — or excluding the recent five keys with nothing active —
would leave no eligible candidate, the candidate set silently falls back to
the full pool; and (consequence) there is a reachable manager state — one
guaranteed-turn activation from a fresh manager — in which a selection from
a pool of non-stackable catalog mutations picks a non-stackable mutation
while another mutation is active. -/
theorem c10_select_mutation_total_relaxed :
    (∀ (st : MutationManagerState) (pool : List Mutation) (r : Nat), pool ≠ [] →
      ∃ m st2, select_mutation st pool r = some (m, st2) ∧ m ∈ pool) ∧
    (∀ (st : MutationManagerState) (pool : List Mutation),
      st.active_mutations ≠ [] → pool.filter (fun m => m.can_stack) = [] →
      select_candidates st pool = pool) ∧
    (∀ (st : MutationManagerState) (pool : List Mutation),
      st.active_mutations = [] →
      pool.filter (fun m => !((last5 st.mutation_history).contains m.key)) = [] →
      select_candidates st pool = pool) ∧
    (∃ (outs : List (List Mutation)) (st2 : MutationManagerState),
      run_check_mutation mutation_manager_init [(⟨2, 0⟩, ⟨0, 0, 0⟩)] = some (outs, st2) ∧
      st2.active_mutations ≠ [] ∧
      ∃ st3, select_mutation st2 [m_echo_chamber] 0 = some (m_echo_chamber, st3) ∧
        m_echo_chamber.can_stack = false) := by
  refine ⟨?_, ?_, ?_, ?_⟩
  · intro st pool r h
    obtain ⟨m, st2, h1, h2, _⟩ := select_mutation_mem st pool r h
    exact ⟨m, st2, h1, h2⟩
  · intro st pool hact hstack
    have hact2 : (!st.active_mutations.isEmpty) = true := by
      cases hh : st.active_mutations with
      | nil => exact absurd hh hact
      | cons x xs => rfl
    have hfilter : ∀ (l : List Mutation), (∀ m ∈ l, m ∈ pool) →
        l.filter (fun m => m.can_stack) = [] := by
      intro l hl
      rw [List.filter_eq_nil]
      intro a ha
      exact List.filter_eq_nil.mp hstack a (hl a ha)
    have hsub2 : ∀ x ∈ (if (pool.filter fun m =>
        !((last5 st.mutation_history).contains m.key)).isEmpty then pool
        else pool.filter fun m => !((last5 st.mutation_history).contains m.key)),
        x ∈ pool := by
      intro x hx
      split at hx
      · exact hx
      · exact List.mem_of_mem_filter hx
    unfold select_candidates
    dsimp only
    rw [if_pos hact2, hfilter _ hsub2]
    simp
  · intro st pool hact hrec
    unfold select_candidates
    dsimp only
    rw [hrec]
    simp [hact]
  · refine ⟨[[m_choice_inflation]],
      ⟨[(m_choice_inflation, 1, .activating)], ["choice_inflation"], 0, none⟩,
      by decide, by decide,
      ⟨[(m_choice_inflation, 1, .activating)], ["choice_inflation", "echo_chamber"], 0, none⟩,
      by decide, by decide⟩

/-- C10 witness: the universal parts at concrete inputs. -/
theorem c10_select_mutation_total_relaxed_witness :
    ([m_echo_chamber] : List Mutation) ≠ [] ∧
    (∃ m st2, select_mutation mutation_manager_init [m_echo_chamber] 0 = some (m, st2) ∧
      m ∈ [m_echo_chamber]) ∧
    select_candidates
      ⟨[(m_choice_inflation, 1, MState.activating)], [], 0, none⟩ [m_echo_chamber] =
      [m_echo_chamber] :=
  ⟨by decide,
   c10_select_mutation_total_relaxed.1 mutation_manager_init [m_echo_chamber] 0 (by decide),
   c10_select_mutation_total_relaxed.2.1
     ⟨[(m_choice_inflation, 1, MState.activating)], [], 0, none⟩ [m_echo_chamber]
     (by decide) (by decide)⟩

/-- `_activate_mutation` sets the cooldown by rarity: a `randint(1, 2)` value
for rare/ultra-rare, 0 for common/uncommon. -/
theorem activate_mutation_cooldown (st : MutationManagerState) (m : Mutation)
    (rng : MutationRng) :
    ((m.rarity = .rare ∨ m.rarity = .ultra_rare) →
      (activate_mutation st m rng).cooldown = 1 ∨ (activate_mutation st m rng).cooldown = 2) ∧
    ((m.rarity = .common ∨ m.rarity = .uncommon) →
      (activate_mutation st m rng).cooldown = 0) := by
  unfold activate_mutation
  dsimp only
  constructor
  · intro hr
    rw [if_pos hr]
    unfold randint
    dsimp only
    omega
  · intro hc
    have hnr : ¬ (m.rarity = .rare ∨ m.rarity = .ultra_rare) := by
      rcases hc with h | h <;> simp [h]
    rw [if_neg hnr]

/-- The combo pass never touches the cooldown. -/
theorem check_combos_cooldown (st : MutationManagerState) :
    (check_combos st).cooldown = st.cooldown := by
  unfold check_combos
  dsimp only
  split_ifs <;> rfl

/-- The combo pass never touches the active-instance list. -/
theorem check_combos_active (st : MutationManagerState) :
    (check_combos st).active_mutations = st.active_mutations := by
  unfold check_combos
  dsimp only
  split_ifs <;> rfl

/-- C9 (amended): when a mutation is activated on a *non-guaranteed* turn,
the manager's cooldown ends the turn at a value in {1, 2} for rare and
ultra-rare rarities and at 0 for common and uncommon rarities; on a
*guaranteed* turn the cooldown always ends the turn at 0 (the
`self.cooldown = 0` reset after guaranteed activation overrides the rarity
cooldown), and the combo pass changes no cooldown, so these values are the
turn-end values of `check_mutation`. -/
theorem c9_cooldown_amended :
    (∀ (st : MutationManagerState) (ctx : MutationContext) (rng : MutationRng)
        (m : Mutation) (stc : MutationManagerState),
      MUTATION_GUARANTEED_AT.contains ctx.choice_count = false →
      check_mutation_core st ctx rng = some (some m, stc) →
      ((m.rarity = .rare ∨ m.rarity = .ultra_rare) → stc.cooldown = 1 ∨ stc.cooldown = 2) ∧
      ((m.rarity = .common ∨ m.rarity = .uncommon) → stc.cooldown = 0)) ∧
    (∀ (st : MutationManagerState) (ctx : MutationContext) (rng : MutationRng)
        (res : Option Mutation × MutationManagerState),
      MUTATION_GUARANTEED_AT.contains ctx.choice_count = true →
      check_mutation_core st ctx rng = some res → res.2.cooldown = 0) ∧
    (∀ (st : MutationManagerState) (ctx : MutationContext) (rng : MutationRng)
        (nm : Option Mutation) (stc : MutationManagerState)
        (acts : List Mutation) (st2 : MutationManagerState),
      check_mutation_core st ctx rng = some (nm, stc) →
      check_mutation st ctx rng = some (acts, st2) → st2.cooldown = stc.cooldown) := by
  refine ⟨?_, ?_, ?_⟩
  · intro st ctx rng m stc hng hcore
    unfold check_mutation_core at hcore
    dsimp only at hcore
    simp only [hng, Bool.false_eq_true, if_false] at hcore
    split at hcore <;> split at hcore <;>
      first
      | (simp at hcore; done)
      | (split at hcore <;>
          first
          | (simp at hcore; done)
          | (simp only [Option.some_inj, Prod.mk.injEq] at hcore
             obtain ⟨hm, hst⟩ := hcore
             subst hm
             rw [← hst]
             exact activate_mutation_cooldown _ _ rng))
  · intro st ctx rng res hg hcore
    unfold check_mutation_core at hcore
    dsimp only at hcore
    simp only [hg, if_true] at hcore
    split at hcore <;>
      first
      | (simp at hcore; done)
      | (injection hcore with h2
         subst h2
         rfl)
      | (split at hcore <;>
          first
          | (simp at hcore; done)
          | (injection hcore with h2
             subst h2
             rfl))
  · intro st ctx rng nm stc acts st2 hcore hfull
    unfold check_mutation at hfull
    rw [hcore] at hfull
    dsimp only at hfull
    rw [Option.some_inj, Prod.mk.injEq] at hfull
    rw [← hfull.2]
    exact check_combos_cooldown stc

/-- C9 counterexample to the claim as stated: on the guaranteed turn 15, the
rare mutation open_dialogue is activated (the only active instance after the
call) yet the manager ends the turn with cooldown 0, because `check_mutation`
unconditionally resets the cooldown after a guaranteed activation. -/
theorem c9_counterexample :
    MUTATION_GUARANTEED_AT.contains 15 = true ∧
    (check_mutation mutation_manager_init ⟨15, 0⟩ ⟨1000, 990, 0⟩).map
      (fun r => (r.2.active_mutations.map (fun e => (e.1.key, e.1.rarity)), r.2.cooldown)) =
      some ([("open_dialogue", MutationRarity.rare)], 0) := by
  decide

/-- C9 witness: a common mutation activated on the non-guaranteed turn 3
ends the turn with cooldown 0. -/
theorem c9_cooldown_amended_witness :
    MUTATION_GUARANTEED_AT.contains 3 = false ∧
    check_mutation_core mutation_manager_init ⟨3, 0⟩ ⟨0, 0, 0⟩ =
      some (some m_choice_inflation,
        ⟨[(m_choice_inflation, 1, MState.activating)], ["choice_inflation"], 0, none⟩) ∧
    (((m_choice_inflation.rarity = .rare ∨ m_choice_inflation.rarity = .ultra_rare) →
        (⟨[(m_choice_inflation, 1, MState.activating)], ["choice_inflation"], 0, none⟩ :
          MutationManagerState).cooldown = 1 ∨
        (⟨[(m_choice_inflation, 1, MState.activating)], ["choice_inflation"], 0, none⟩ :
          MutationManagerState).cooldown = 2) ∧
     ((m_choice_inflation.rarity = .common ∨ m_choice_inflation.rarity = .uncommon) →
        (⟨[(m_choice_inflation, 1, MState.activating)], ["choice_inflation"], 0, none⟩ :
          MutationManagerState).cooldown = 0)) :=
  ⟨by decide, by decide,
   c9_cooldown_amended.1 mutation_manager_init ⟨3, 0⟩ ⟨0, 0, 0⟩ m_choice_inflation
     ⟨[(m_choice_inflation, 1, MState.activating)], ["choice_inflation"], 0, none⟩
     (by decide) (by decide)⟩

/-- Aging decrements every positive turns-remaining entry by exactly 1. -/
theorem update_active_decrement (l : List (Mutation × Nat × MState)) (m : Mutation)
    (t : Nat) (s : MState) (h : (m, t + 1, s) ∈ l) :
    ∃ s2, (m, t, s2) ∈ update_active_mutations l := by
  unfold update_active_mutations
  refine ⟨if t = 0 then MState.fading else if 1 < l.length then MState.stacking
    else MState.active, ?_⟩
  rw [List.mem_filterMap]
  exact ⟨(m, t + 1, s), h, by simp⟩

/-- Every entry surviving an aging pass came from an entry with one more
turn remaining; in particular entries at 0 are removed. -/
theorem update_active_source (l : List (Mutation × Nat × MState))
    (e : Mutation × Nat × MState) (h : e ∈ update_active_mutations l) :
    ∃ s2, (e.1, e.2.1 + 1, s2) ∈ l := by
  unfold update_active_mutations at h
  rw [List.mem_filterMap] at h
  obtain ⟨a, ha, hfa⟩ := h
  obtain ⟨m2, t2, s2⟩ := a
  by_cases ht : 0 < t2
  · rw [if_pos ht] at hfa
    injection hfa with h2
    subst h2
    refine ⟨s2, ?_⟩
    dsimp only
    have h3 : t2 - 1 + 1 = t2 := by omega
    rw [h3]
    exact ha
  · rw [if_neg ht] at hfa
    simp at hfa

/-- Aging preserves the turns-vs-duration invariant. -/
theorem update_active_inv (st : MutationManagerState) (h : MutInv st) :
    MutInv { st with active_mutations := update_active_mutations st.active_mutations } := by
  intro e he
  obtain ⟨s2, hs⟩ := update_active_source _ e he
  have h2 := h _ hs
  dsimp only at h2 ⊢
  omega

/-- `_select_mutation` never changes the active-instance list. -/
theorem select_mutation_active (st : MutationManagerState) (pool : List Mutation)
    (r : Nat) (m : Mutation) (st2 : MutationManagerState)
    (h : select_mutation st pool r = some (m, st2)) :
    st2.active_mutations = st.active_mutations := by
  unfold select_mutation at h
  split at h
  · simp at h
  · injection h with h2
    rw [Prod.mk.injEq] at h2
    rw [← h2.2]

/-- `_try_trigger_mutation` never changes the active-instance list. -/
theorem try_trigger_active (st : MutationManagerState) (ctx : MutationContext)
    (rng : MutationRng) (nm : Option Mutation) (st2 : MutationManagerState)
    (h : try_trigger_mutation st ctx rng = some (nm, st2)) :
    st2.active_mutations = st.active_mutations := by
  unfold try_trigger_mutation at h
  dsimp only at h
  split at h
  · split at h
    · simp at h
    · rename_i m2 st3 heq
      injection h with h2
      rw [Prod.mk.injEq] at h2
      rw [← h2.2]
      exact select_mutation_active _ _ _ _ _ heq
  · injection h with h2
    rw [Prod.mk.injEq] at h2
    rw [← h2.2]

/-- `_force_mutation` never changes the active-instance list. -/
theorem force_mutation_active (st : MutationManagerState) (ctx : MutationContext)
    (rng : MutationRng) (m : Mutation) (st2 : MutationManagerState)
    (h : force_mutation st ctx rng = some (m, st2)) :
    st2.active_mutations = st.active_mutations := by
  unfold force_mutation at h
  exact select_mutation_active _ _ _ _ _ h

/-- Activation preserves the turns-vs-duration invariant: the new instance
enters with exactly its catalog duration. -/
theorem activate_mutation_inv (st : MutationManagerState) (m : Mutation)
    (rng : MutationRng) (h : MutInv st) : MutInv (activate_mutation st m rng) := by
  unfold activate_mutation MutInv
  dsimp only
  split_ifs <;> intro e he <;> dsimp only at he <;> rw [List.mem_append] at he <;>
    rcases he with he | he <;>
    first
    | exact h e he
    | (simp at he
       rw [he])

/-- The invariant only depends on the active-instance list. -/
theorem mutinv_of_active_eq (st1 st2 : MutationManagerState)
    (h : st2.active_mutations = st1.active_mutations) (h1 : MutInv st1) : MutInv st2 := by
  intro e he
  rw [h] at he
  exact h1 e he

/-- `check_mutation_core` preserves the turns-vs-duration invariant. -/
theorem check_mutation_core_inv (st : MutationManagerState) (ctx : MutationContext)
    (rng : MutationRng) (nm : Option Mutation) (stc : MutationManagerState)
    (h : MutInv st) (hcore : check_mutation_core st ctx rng = some (nm, stc)) :
    MutInv stc := by
  have h1 : MutInv { st with active_mutations := update_active_mutations st.active_mutations } :=
    update_active_inv st h
  unfold check_mutation_core at hcore
  dsimp only at hcore
  by_cases hdec : 0 < st.cooldown
  all_goals first | rw [if_pos hdec] at hcore | rw [if_neg hdec] at hcore
  all_goals
    (split at hcore
     · split at hcore
       · simp at hcore
       · rename_i m2 st3 heq
         injection hcore with h2
         rw [Prod.mk.injEq] at h2
         rw [← h2.2]
         have hact := try_trigger_active _ _ _ _ _ heq
         intro e he
         refine activate_mutation_inv st3 m2 rng ?_ e he
         intro e2 he2
         rw [hact] at he2
         exact h1 e2 he2
       · rename_i st3 heq
         split at hcore
         · simp at hcore
         · rename_i m3 st4 heq2
           injection hcore with h2
           rw [Prod.mk.injEq] at h2
           rw [← h2.2]
           have hact := force_mutation_active _ _ _ _ _ heq2
           have hact0 := try_trigger_active _ _ _ _ _ heq
           intro e he
           refine activate_mutation_inv st4 m3 rng ?_ e he
           intro e2 he2
           rw [hact, hact0] at he2
           exact h1 e2 he2
     · split at hcore
       · split at hcore
         · simp at hcore
         · rename_i m2 st3 heq
           injection hcore with h2
           rw [Prod.mk.injEq] at h2
           rw [← h2.2]
           have hact := try_trigger_active _ _ _ _ _ heq
           intro e he
           refine activate_mutation_inv st3 m2 rng ?_ e he
           intro e2 he2
           rw [hact] at he2
           exact h1 e2 he2
         · rename_i st3 heq
           injection hcore with h2
           rw [Prod.mk.injEq] at h2
           rw [← h2.2]
           have hact := try_trigger_active _ _ _ _ _ heq
           intro e he
           rw [hact] at he
           exact h1 e he
       · injection hcore with h2
         rw [Prod.mk.injEq] at h2
         rw [← h2.2]
         intro e he
         exact h1 e he)

/-- `check_mutation` preserves the invariant and only ever reports mutations
of positive duration as active. -/
theorem check_mutation_acts (st : MutationManagerState) (ctx : MutationContext)
    (rng : MutationRng) (acts : List Mutation) (st2 : MutationManagerState)
    (h : MutInv st) (hfull : check_mutation st ctx rng = some (acts, st2)) :
    MutInv st2 ∧ ∀ m ∈ acts, 0 < m.duration := by
  unfold check_mutation at hfull
  split at hfull
  · simp at hfull
  · rename_i nm stc heq
    dsimp only at hfull
    injection hfull with h2
    rw [Prod.mk.injEq] at h2
    have hstc : MutInv stc := check_mutation_core_inv st ctx rng nm stc h heq
    have hst2 : MutInv st2 :=
      mutinv_of_active_eq _ _ (by rw [← h2.2, check_combos_active]) hstc
    refine ⟨hst2, ?_⟩
    intro m hm
    rw [← h2.1] at hm
    rw [List.mem_map] at hm
    obtain ⟨e, he, hem⟩ := hm
    rw [List.mem_filter] at he
    have h3 := hst2 e (by rw [← h2.2]; exact he.1)
    have h4 : 0 < e.2.1 := by simpa using he.2
    rw [← hem]
    omega

/-- C5: each aging pass decrements the turns-remaining of every positive
entry by exactly 1 (part 1) and keeps only entries that had a positive count
— an instance that reached 0 is removed before the selection pass of the
same `check_mutation` call (part 2); every turn preserves the
turns-never-exceed-duration invariant and only reports positive-duration
mutations as active (part 3); hence over any run of turns a mutation with
duration 0 is never returned as active on any turn (part 4). -/
theorem c5_mutation_aging_duration :
    (∀ (l : List (Mutation × Nat × MState)) (m : Mutation) (t : Nat) (s : MState),
      (m, t + 1, s) ∈ l → ∃ s2, (m, t, s2) ∈ update_active_mutations l) ∧
    (∀ (l : List (Mutation × Nat × MState)) (e : Mutation × Nat × MState),
      e ∈ update_active_mutations l → ∃ s2, (e.1, e.2.1 + 1, s2) ∈ l) ∧
    (∀ (st : MutationManagerState) (ctx : MutationContext) (rng : MutationRng)
        (acts : List Mutation) (st2 : MutationManagerState),
      MutInv st → check_mutation st ctx rng = some (acts, st2) →
      MutInv st2 ∧ ∀ m ∈ acts, 0 < m.duration) ∧
    (∀ (st : MutationManagerState) (inputs : List (MutationContext × MutationRng))
        (outs : List (List Mutation)) (st2 : MutationManagerState),
      MutInv st → run_check_mutation st inputs = some (outs, st2) →
      ∀ out ∈ outs, ∀ m ∈ out, 0 < m.duration) := by
  refine ⟨update_active_decrement, update_active_source, check_mutation_acts, ?_⟩
  intro st inputs
  induction inputs generalizing st with
  | nil =>
    intro outs st2 h hrun out hout m hm
    unfold run_check_mutation at hrun
    injection hrun with h2
    rw [Prod.mk.injEq] at h2
    rw [← h2.1] at hout
    simp at hout
  | cons p rest ih =>
    intro outs st2 h hrun out hout m hm
    obtain ⟨pctx, prng⟩ := p
    unfold run_check_mutation at hrun
    split at hrun
    · simp at hrun
    · rename_i acts stA heq
      split at hrun
      · simp at hrun
      · rename_i outsB stB heq2
        injection hrun with h2
        rw [Prod.mk.injEq] at h2
        have hacts := check_mutation_acts st pctx prng acts stA h heq
        rw [← h2.1] at hout
        rw [List.mem_cons] at hout
        rcases hout with hout | hout
        · subst hout
          exact hacts.2 m hm
        · exact ih stA outsB stB hacts.1 heq2 out hout m hm

/-- C5 witness: parts 1 and 3 at a concrete instance list and a concrete
guaranteed-turn activation. -/
theorem c5_mutation_aging_duration_witness :
    ((m_choice_inflation, (1 : Nat), MState.active) ∈
      [(m_choice_inflation, 1, MState.active)]) ∧
    (∃ s2, (m_choice_inflation, (0 : Nat), s2) ∈
      update_active_mutations [(m_choice_inflation, 1, MState.active)]) ∧
    (MutInv mutation_manager_init ∧
      check_mutation mutation_manager_init ⟨2, 0⟩ ⟨0, 0, 0⟩ =
        some ([m_choice_inflation],
          ⟨[(m_choice_inflation, 1, MState.activating)], ["choice_inflation"], 0, none⟩)) ∧
    (MutInv (⟨[(m_choice_inflation, 1, MState.activating)], ["choice_inflation"], 0, none⟩ :
        MutationManagerState) ∧
      ∀ m ∈ [m_choice_inflation], 0 < m.duration) :=
  ⟨by decide,
   c5_mutation_aging_duration.1 _ m_choice_inflation 0 MState.active (by decide),
   ⟨by decide, by decide⟩,
   c5_mutation_aging_duration.2.2.1 mutation_manager_init ⟨2, 0⟩ ⟨0, 0, 0⟩
     [m_choice_inflation]
     ⟨[(m_choice_inflation, 1, MState.activating)], ["choice_inflation"], 0, none⟩
     (by decide) (by decide)⟩

end Tildeath
